import Mathlib

/-!
Verification of the Etabs_projects automation pipeline.

This file gives a shallow embedding, in Lean 4, of the pure computational
kernels of the repository:

* `loads/response_spectrum.py` — the GB 50011 design response-spectrum shape
  function `china_response_spectrum` (modelled over `ℝ`, with the Python
  float power `**` modelled by the real power `Real.rpow`);
* `utils/helpers.py` — the return-code gate `check_ret` (modelled as a pure
  function into an outcome type, where `sys.exit` is the `exit` outcome);
* `results/drift_results.py` — the drift-record normalisation, per-direction
  maximum tracking and compliance classification of `extract_story_drifts`
  (modelled over `ℚ`);
* `geometry/common.py`, `geometry/shear_wall_geometry.py`,
  `geometry/mesh_utils.py`, `geometry/frame_geometry.py` — grid coordinates,
  the 1/3-1/3-1/3 coupled shear-wall bay layout, rectangular mesh grids and
  frame column/beam generation (modelled over `ℚ`; the external-application
  side effects are dropped and each generator returns the list of objects it
  would create).

Theorems at the end settle the stated properties of these functions.
-/

namespace Etabs

/-! ## Response spectrum (`loads/response_spectrum.py`, `china_response_spectrum`) -/

noncomputable section RS

/-- Constant `GRAVITY_ACCEL` from the configuration bundles. -/
def GRAVITY_ACCEL : ℝ := 9.80665

/-- Exponent `gamma = 0.9 + (0.05 - zeta) / (0.3 + 6.0 * zeta)` from
`china_response_spectrum`. -/
def rs_gamma (zeta : ℝ) : ℝ := 0.9 + (0.05 - zeta) / (0.3 + 6.0 * zeta)

/-- Coefficient `eta1 = max(0.0, 0.02 + (0.05 - zeta) / (4.0 + 32.0 * zeta))`. -/
def rs_eta1 (zeta : ℝ) : ℝ := max 0 (0.02 + (0.05 - zeta) / (4.0 + 32.0 * zeta))

/-- Coefficient `eta2 = max(0.55, 1.0 + (0.05 - zeta) / (0.08 + 1.6 * zeta))`. -/
def rs_eta2 (zeta : ℝ) : ℝ := max 0.55 (1.0 + (0.05 - zeta) / (0.08 + 1.6 * zeta))

/-- Value of `current_alpha_coeff` assigned by the `if`/`elif` chain of
`china_response_spectrum`, before the two final floor assignments. -/
def rs_alpha_branch (T zeta alpha_max Tg : ℝ) : ℝ :=
  if T < 0 then 0
  else if T = 0 then 0.45 * alpha_max
  else if T ≤ 0.1 then
    min ((0.45 + 10.0 * (rs_eta2 zeta - 0.45) * T) * alpha_max) (rs_eta2 zeta * alpha_max)
  else if T ≤ Tg then rs_eta2 zeta * alpha_max
  else if T ≤ 5.0 * Tg then (Tg / T) ^ rs_gamma zeta * rs_eta2 zeta * alpha_max
  else if T ≤ 6.0 then
    ((0.2 : ℝ) ^ rs_gamma zeta * rs_eta2 zeta - rs_eta1 zeta * (T - 5.0 * Tg)) * alpha_max
  else
    ((0.2 : ℝ) ^ rs_gamma zeta * rs_eta2 zeta - rs_eta1 zeta * (6.0 - 5.0 * Tg)) * alpha_max

/-- Function `china_response_spectrum(T, zeta, alpha_max, Tg, g)`: the branch
coefficient, floored first at `0.20 * alpha_max` and then at `0`, times `g`. -/
def china_response_spectrum (T zeta alpha_max Tg g : ℝ) : ℝ :=
  max 0 (max (rs_alpha_branch T zeta alpha_max Tg) (0.20 * alpha_max)) * g

end RS

/-! ## Return-code gate (`utils/helpers.py`, `check_ret`) -/

/-- Python substring test `pat in s`, expressed on the underlying character
lists of the two strings. -/
def str_contains_sub (s pat : String) : Bool :=
  (List.range (s.data.length + 1)).any fun i => List.isPrefixOf pat.data (s.data.drop i)

/-- Allow-list of call-name substrings for which a return code of 1 is treated
as benign (object already exists / value unchanged / empty result set), copied
from the keyword list in `check_ret`. -/
def benign_code1_keywords : List String :=
  ["SetNumberModes", "SetMaterial", "SetWall", "SetSlab",
   "SetRectangle", "SetCase", "Add(", "AddByCoord", "SetDiaphragm",
   "SetPier", "SetSpandrel", "SetSelfWTMultiplier", "SetLoadUniform",
   "SetRunCaseFlag", "DeselectAllCasesAndCombosForOutput",
   "SetCaseSelectedForOutput", "Drift", "SetModifiers",
   "Results.ModalPeriod", "Results.ModalParticipatingMassRatios",
   "Results.StoryDrifts", "Results.", "ModalPeriod",
   "ModalParticipatingMassRatios", "StoryDrifts", "GetNameList",
   "RefreshView"]

/-- Return value of an external API call as seen by `check_ret`: either a bare
integer status code or a tuple (of which only integer components matter; the
first one is the status code). -/
inductive RetVal where
  | int (code : ℤ) : RetVal
  | tuple (codes : List ℤ) : RetVal
deriving DecidableEq

/-- Outcome of `check_ret`: the code is returned to the caller, or `sys.exit`
terminates the whole process. -/
inductive CheckRetOutcome where
  | ret (code : ℤ) : CheckRetOutcome
  | exit : CheckRetOutcome
deriving DecidableEq

/-- Normalised status code `ret_val[0] if isinstance(ret_val, tuple) and
len(ret_val) > 0 else ret_val`; `none` models the fallthrough in which an
empty tuple itself is used as the code — a non-integer value that can never
equal 1 nor belong to an integer ok-code set. -/
def ret_code : RetVal → Option ℤ
  | .int c => some c
  | .tuple (c :: _) => some c
  | .tuple [] => none

/-- Function `check_ret(ret_val, func_name, ok_codes)` from `utils/helpers.py`
(the `System is None` guard is dropped: the interop runtime is loaded). -/
def check_ret (ret_val : RetVal) (func_name : String) (ok_codes : List ℤ) :
    CheckRetOutcome :=
  match ret_code ret_val with
  | some code =>
    if code == 1 && benign_code1_keywords.any (fun kw => str_contains_sub func_name kw)
    then .ret code
    else if code ∈ ok_codes then .ret code
    else .exit
  | none => .exit

/-! ## Story drift extraction (`results/drift_results.py`, `extract_story_drifts`) -/

/-- ASCII upper-casing of one character, as Python `str.upper` acts on the
direction tokens used here. -/
def ascii_upper (c : Char) : Char :=
  if 'a' ≤ c ∧ c ≤ 'z' then Char.ofNat (c.toNat - 32) else c

/-- Python whitespace test used by `str.strip`. -/
def is_py_space (c : Char) : Bool :=
  c = ' ' || c = '\t' || c = '\n' || c = '\r' || c = '\x0b' || c = '\x0c'

/-- Python `s.upper()` on the character list of `s`. -/
def py_upper (s : String) : String := ⟨s.data.map ascii_upper⟩

/-- Python `s.strip()`: leading and trailing whitespace removed. -/
def py_strip (s : String) : String :=
  ⟨((s.data.dropWhile is_py_space).reverse.dropWhile is_py_space).reverse⟩

/-- Direction bucketing of `extract_story_drifts`:
`dir_raw = direction_list[i].upper().strip()`, then membership in
`("U1", "UX", "X")` gives key "X", membership in `("U2", "UY", "Y")` gives
key "Y", anything else "?". -/
def dir_key_of (direction : String) : String :=
  let dir_raw := py_strip (py_upper direction)
  if dir_raw = "U1" ∨ dir_raw = "UX" ∨ dir_raw = "X" then "X"
  else if dir_raw = "U2" ∨ dir_raw = "UY" ∨ dir_raw = "Y" then "Y"
  else "?"

/-- Python `round(x, 4)` (round half to even on the 4th decimal), modelled
exactly over `ℚ`. -/
def round_half_even (x : ℚ) : ℤ :=
  let f := ⌊x⌋
  if x - f < 1/2 then f
  else if 1/2 < x - f then f + 1
  else if f % 2 = 0 then f else f + 1

/-- Rounding to 4 decimal places, as `round(drift_permil, 4)`. -/
def round4 (x : ℚ) : ℚ := (round_half_even (x * 10000) : ℤ) / 10000

/-- One row of the raw StoryDrifts result set: story, load case, direction
token and the reported drift in radians (the step/label/coordinate columns
are pass-through data that no examined output depends on, and are omitted). -/
structure DriftInput where
  story : String
  load_case : String
  direction : String
  drift : ℚ
deriving DecidableEq

/-- One entry of the `records` list built by `extract_story_drifts`: the
direction is the normalised key and `drift_permil` is the radian value times
1000, rounded to 4 decimals. -/
structure DriftRecord where
  story : String
  load_case : String
  direction : String
  drift_permil : ℚ
  drift_rad : ℚ
deriving DecidableEq

/-- Records construction loop of `extract_story_drifts`. -/
def drift_records (inputs : List DriftInput) : List DriftRecord :=
  inputs.map fun r =>
    { story := r.story
      load_case := r.load_case
      direction := dir_key_of r.direction
      drift_permil := round4 (r.drift * 1000)
      drift_rad := r.drift }

/-- One step of the per-direction running-maximum update: the record's
unrounded per-mille drift replaces the stored value when strictly larger in
absolute value. The source stores the index of the record and later reads
`records[idx]`; the state here carries that record itself. -/
def drift_max_step (axis : String) (st : ℚ × Option DriftRecord)
    (r : DriftRecord) : ℚ × Option DriftRecord :=
  if r.direction = axis then
    if |r.drift_rad * 1000| > |st.1| then (r.drift_rad * 1000, some r) else st
  else st

/-- Running maximum for one direction key, starting from `(0.0, None)`. -/
def drift_max_fold (recs : List DriftRecord) (axis : String) :
    ℚ × Option DriftRecord :=
  recs.foldl (drift_max_step axis) (0, none)

/-- Per-direction summary block `max_drift_results["max_drift_" + axis]`. -/
structure MaxDriftInfo where
  value_permil : ℚ
  abs_value_permil : ℚ
  story : String
  load_case : String
  is_ok : Bool
  limit_permil : ℚ
deriving DecidableEq

/-- Reporting step of `extract_story_drifts` for one axis: `None` when no
record was tracked or the tracked value is zero, otherwise the summary with
`is_ok = (abs_val <= DRIFT_LIMIT_PERMIL)`. -/
def axis_max_result (recs : List DriftRecord) (limit : ℚ) (axis : String) :
    Option MaxDriftInfo :=
  match drift_max_fold recs axis with
  | (_, none) => none
  | (val, some r) =>
    if |val| = 0 then none
    else some
      { value_permil := val
        abs_value_permil := |val|
        story := r.story
        load_case := r.load_case
        is_ok := decide (|val| ≤ limit)
        limit_permil := limit }

/-- Structured result of `extract_story_drifts` (the fields the claims are
about). -/
structure DriftExtractResult where
  records : List DriftRecord
  max_drift_X : Option MaxDriftInfo
  max_drift_Y : Option MaxDriftInfo
  limit_permil : ℚ
  overall_status : String
deriving DecidableEq

/-- Core of `extract_story_drifts` on an already-fetched result set: record
conversion, per-direction maxima, compliance classification, and the overall
verdict (`all` over the non-`None` direction summaries). -/
def extract_story_drifts (inputs : List DriftInput) (limit : ℚ) :
    DriftExtractResult :=
  let recs := drift_records inputs
  let mX := axis_max_result recs limit "X"
  let mY := axis_max_result recs limit "Y"
  let all_ok := (match mX with | some info => info.is_ok | none => true)
             && (match mY with | some info => info.is_ok | none => true)
  { records := recs
    max_drift_X := mX
    max_drift_Y := mY
    limit_permil := limit
    overall_status := if all_ok then "满足规范要求" else "存在超限" }

/-! ## Geometry: grids and the coupled shear-wall layout
(`geometry/common.py`, `geometry/shear_wall_geometry.py`) -/

/-- Section-name constant from `config/config_shear_wall.py`. -/
def WALL_SECTION_NAME : String := "Wall-200"

/-- Section-name constant from `config/config_shear_wall.py`. -/
def COUPLING_BEAM_SECTION_NAME : String := "CB-200"

/-- Function `generate_grid_coordinates` for one axis: the arithmetic
progression `[i * spacing for i in range(num_lines)]` (the module constants
`NUM_GRID_LINES_X/Y` and `SPACING_X/Y` are passed as parameters). -/
def generate_grid_coordinates (num_lines : ℕ) (spacing : ℚ) : List ℚ :=
  (List.range num_lines).map fun (i : ℕ) => (i : ℚ) * spacing

/-- Planar data of class `StructuralElementPlan`; the field `element_class`
models the source attribute named element type marker ("P" for pier, "S" for
spandrel). -/
structure StructuralElementPlan where
  x_coords : List ℚ
  y_coords : List ℚ
  section_name : String
  base_name_template : String
  is_coupling_beam : Bool
  element_class : String
deriving DecidableEq

/-- Python `min(xs)` over a non-empty coordinate list, as used by
`calculate_element_dimensions`. -/
def list_min : List ℚ → ℚ
  | [] => 0
  | x :: xs => xs.foldl min x

/-- Python `max(xs)` over a non-empty coordinate list. -/
def list_max : List ℚ → ℚ
  | [] => 0
  | x :: xs => xs.foldl max x

/-- Loop body of the first half of `generate_shear_wall_planar_layout`: the
three elements appended for the bay `[xs, xe]` on the Y grid line `y_c`
(left pier `HWL`, central coupling beam `HCB`, right pier `HWR`), with the
1/3 segmentation coefficient `seg_f = 1 / 3.0`. -/
def h_bay_segments (sx xs xe y_c : ℚ) (ix iy : ℕ) : List StructuralElementPlan :=
  let seg_f : ℚ := 1 / 3
  [{ x_coords := [xs, xs + sx * seg_f, xs + sx * seg_f, xs]
     y_coords := [y_c, y_c, y_c, y_c]
     section_name := WALL_SECTION_NAME
     base_name_template := s!"HWL_X{ix}_Y{iy}"
     is_coupling_beam := false
     element_class := "P" },
   { x_coords := [xs + sx * seg_f, xs + sx * 2 * seg_f,
                  xs + sx * 2 * seg_f, xs + sx * seg_f]
     y_coords := [y_c, y_c, y_c, y_c]
     section_name := COUPLING_BEAM_SECTION_NAME
     base_name_template := s!"HCB_X{ix}_Y{iy}"
     is_coupling_beam := true
     element_class := "S" },
   { x_coords := [xs + sx * 2 * seg_f, xe, xe, xs + sx * 2 * seg_f]
     y_coords := [y_c, y_c, y_c, y_c]
     section_name := WALL_SECTION_NAME
     base_name_template := s!"HWR_X{ix}_Y{iy}"
     is_coupling_beam := false
     element_class := "P" }]

/-- Loop body of the second half of `generate_shear_wall_planar_layout`:
bottom pier `VWB`, central coupling beam `VCB`, top pier `VWT` for the bay
`[ys, ye]` on the X grid line `x_c`. -/
def v_bay_segments (sy ys ye x_c : ℚ) (ix iy : ℕ) : List StructuralElementPlan :=
  let seg_f : ℚ := 1 / 3
  [{ x_coords := [x_c, x_c, x_c, x_c]
     y_coords := [ys, ys + sy * seg_f, ys + sy * seg_f, ys]
     section_name := WALL_SECTION_NAME
     base_name_template := s!"VWB_X{ix}_Y{iy}"
     is_coupling_beam := false
     element_class := "P" },
   { x_coords := [x_c, x_c, x_c, x_c]
     y_coords := [ys + sy * seg_f, ys + sy * 2 * seg_f,
                  ys + sy * 2 * seg_f, ys + sy * seg_f]
     section_name := COUPLING_BEAM_SECTION_NAME
     base_name_template := s!"VCB_X{ix}_Y{iy}"
     is_coupling_beam := true
     element_class := "S" },
   { x_coords := [x_c, x_c, x_c, x_c]
     y_coords := [ys + sy * 2 * seg_f, ye, ye, ys + sy * 2 * seg_f]
     section_name := WALL_SECTION_NAME
     base_name_template := s!"VWT_X{ix}_Y{iy}"
     is_coupling_beam := false
     element_class := "P" }]

/-- Function `generate_shear_wall_planar_layout`, parameterised by the grid
configuration: horizontal elements along every Y grid line over every X bay,
followed by vertical elements along every X grid line over every Y bay. -/
def generate_shear_wall_planar_layout (nx ny : ℕ) (sx sy : ℚ) :
    List StructuralElementPlan :=
  let grid_x := generate_grid_coordinates nx sx
  let grid_y := generate_grid_coordinates ny sy
  (grid_y.enum.bind fun p =>
    (List.range (nx - 1)).bind fun ix =>
      h_bay_segments sx (grid_x.getD ix 0) (grid_x.getD (ix + 1) 0) p.2 ix p.1) ++
  (grid_x.enum.bind fun p =>
    (List.range (ny - 1)).bind fun iy =>
      v_bay_segments sy (grid_y.getD iy 0) (grid_y.getD (iy + 1) 0) p.2 p.1 iy)

/-! ## Geometry: rectangular mesh grids (`geometry/mesh_utils.py`) -/

/-- One meshed sub-panel: the X, Y and Z coordinate lists of its 4 corners. -/
abbrev MeshPanel := List ℚ × List ℚ × List ℚ

/-- Function `create_mesh_grid`: subdivision of a vertical panel into
`mesh_h × mesh_v` sub-panels, horizontal index outer, vertical index inner;
the `orientation` string selects whether X (with Y constant) or Y (with X
constant) is the varying horizontal axis. -/
def create_mesh_grid (x_min x_max y_min y_max z_min z_max : ℚ)
    (mesh_h mesh_v : ℕ) (orientation : String) : List MeshPanel :=
  if orientation = "X" then
    let width := x_max - x_min
    let height := z_max - z_min
    let dx := width / (mesh_h : ℚ)
    let dz := height / (mesh_v : ℚ)
    (List.range mesh_h).bind fun (i : ℕ) =>
      (List.range mesh_v).map fun (j : ℕ) =>
        ([x_min + (i : ℚ) * dx, x_min + ((i : ℚ) + 1) * dx,
          x_min + ((i : ℚ) + 1) * dx, x_min + (i : ℚ) * dx],
         [y_min, y_min, y_min, y_min],
         [z_min + (j : ℚ) * dz, z_min + (j : ℚ) * dz,
          z_min + ((j : ℚ) + 1) * dz, z_min + ((j : ℚ) + 1) * dz])
  else
    let width := y_max - y_min
    let height := z_max - z_min
    let dy := width / (mesh_h : ℚ)
    let dz := height / (mesh_v : ℚ)
    (List.range mesh_h).bind fun (i : ℕ) =>
      (List.range mesh_v).map fun (j : ℕ) =>
        ([x_min, x_min, x_min, x_min],
         [y_min + (i : ℚ) * dy, y_min + ((i : ℚ) + 1) * dy,
          y_min + ((i : ℚ) + 1) * dy, y_min + (i : ℚ) * dy],
         [z_min + (j : ℚ) * dz, z_min + (j : ℚ) * dz,
          z_min + ((j : ℚ) + 1) * dz, z_min + ((j : ℚ) + 1) * dz])

/-- Axis-aligned bounding box of a sub-panel, as a subset of `ℚ³`. -/
def panel_bbox (p : MeshPanel) : Set (ℚ × ℚ × ℚ) :=
  Set.Icc (list_min p.1) (list_max p.1) ×ˢ
    (Set.Icc (list_min p.2.1) (list_max p.2.1) ×ˢ
      Set.Icc (list_min p.2.2) (list_max p.2.2))

/-! ## Geometry: frame columns and beams (`geometry/frame_geometry.py`) -/

/-- Configuration parameters consumed by the frame geometry generators; the
theorems instantiate them with the values of `config/config_frame.py`. -/
structure FrameConfig where
  num_grid_lines_x : ℕ
  num_grid_lines_y : ℕ
  spacing_x : ℚ
  spacing_y : ℚ
  num_stories : ℕ
  typical_story_height : ℚ
  bottom_story_height : ℚ
  column_grid_pattern : String
  main_beam_direction : String
  beam_layout_main_x : Bool
  beam_layout_main_y : Bool
  beam_layout_secondary : Bool
  secondary_beam_spacing : ℚ
  secondary_beam_direction : String
  enable_frame_columns : Bool
  enable_frame_beams : Bool

/-- One created line member (column or beam): name and the two endpoints
passed to `add_frame_by_coord_custom`. -/
structure FrameMember where
  name : String
  p1 : ℚ × ℚ × ℚ
  p2 : ℚ × ℚ × ℚ
deriving DecidableEq

/-- Cumulative-elevation loop shared by `create_frame_columns` and
`create_frame_beams`: the list of `(story_num, z_bottom, z_top)` triples,
where each story height is `story_heights.get(story_num, TYPICAL)`. -/
def story_levels_from (sh : ℕ → Option ℚ) (typ : ℚ) :
    ℚ → ℕ → ℕ → List (ℕ × ℚ × ℚ)
  | _, _, 0 => []
  | cum, s, n + 1 =>
    let h := (sh s).getD typ
    (s, cum, cum + h) :: story_levels_from sh typ (cum + h) (s + 1) n

/-- Story levels for stories `1 .. num_stories` starting at elevation 0. -/
def story_levels (cfg : FrameConfig) (sh : ℕ → Option ℚ) : List (ℕ × ℚ × ℚ) :=
  story_levels_from sh cfg.typical_story_height 0 1 cfg.num_stories

/-- Column-position selection of `create_frame_columns` according to
`COLUMN_GRID_PATTERN`. -/
def column_positions (cfg : FrameConfig) : List (ℕ × ℕ × ℚ × ℚ) :=
  let grid_x := generate_grid_coordinates cfg.num_grid_lines_x cfg.spacing_x
  let grid_y := generate_grid_coordinates cfg.num_grid_lines_y cfg.spacing_y
  if cfg.column_grid_pattern = "ALL_INTERSECTIONS" then
    grid_x.enum.bind fun p => grid_y.enum.map fun q => (p.1, q.1, p.2, q.2)
  else if cfg.column_grid_pattern = "PERIMETER_ONLY" then
    grid_x.enum.bind fun p =>
      (grid_y.enum.filter fun q =>
        p.1 = 0 ∨ p.1 = grid_x.length - 1 ∨ q.1 = 0 ∨ q.1 = grid_y.length - 1).map
        fun q => (p.1, q.1, p.2, q.2)
  else if cfg.column_grid_pattern = "CORNER_ONLY" then
    let cx := grid_x.length - 1
    let cy := grid_y.length - 1
    [(0, 0, grid_x.getD 0 0, grid_y.getD 0 0),
     (0, cy, grid_x.getD 0 0, grid_y.getD cy 0),
     (cx, 0, grid_x.getD cx 0, grid_y.getD 0 0),
     (cx, cy, grid_x.getD cx 0, grid_y.getD cy 0)]
  else
    grid_x.enum.bind fun p => grid_y.enum.map fun q => (p.1, q.1, p.2, q.2)

/-- Function `create_frame_columns`: one column per position per story,
spanning `z_bottom .. z_top`. -/
def create_frame_columns (cfg : FrameConfig) (sh : ℕ → Option ℚ) :
    List FrameMember :=
  if cfg.enable_frame_columns = false then []
  else
    (story_levels cfg sh).bind fun st =>
      (column_positions cfg).map fun pos =>
        { name := s!"COL_X{pos.1}_Y{pos.2.1}_S{st.1}"
          p1 := (pos.2.2.1, pos.2.2.2, st.2.1)
          p2 := (pos.2.2.1, pos.2.2.2, st.2.2) }

/-- X-direction main beams of one story (`BEAM_X{i}_{i+1}_Y{j}`): between
consecutive X grid lines, at every Y grid line, at the story top level. -/
def x_main_beams (cfg : FrameConfig) (grid_x grid_y : List ℚ) (z : ℚ) (s : ℕ) :
    List FrameMember :=
  grid_y.enum.bind fun q =>
    (List.range (cfg.num_grid_lines_x - 1)).map fun i =>
      { name := s!"BEAM_X{i}_{i + 1}_Y{q.1}_S{s}"
        p1 := (grid_x.getD i 0, q.2, z)
        p2 := (grid_x.getD (i + 1) 0, q.2, z) }

/-- Y-direction main beams of one story (`BEAM_X{i}_Y{j}_{j+1}`). -/
def y_main_beams (cfg : FrameConfig) (grid_x grid_y : List ℚ) (z : ℚ) (s : ℕ) :
    List FrameMember :=
  grid_x.enum.bind fun p =>
    (List.range (cfg.num_grid_lines_y - 1)).map fun j =>
      { name := s!"BEAM_X{p.1}_Y{j}_{j + 1}_S{s}"
        p1 := (p.2, grid_y.getD j 0, z)
        p2 := (p.2, grid_y.getD (j + 1) 0, z) }

/-- Python `int(q)`: truncation toward zero. -/
def py_int (q : ℚ) : ℤ := if 0 ≤ q then ⌊q⌋ else -⌊-q⌋

/-- Per-bay loop body of `_create_secondary_beams`: the beams created inside
the bay `[x1, x2] × [y1, y2]`; `num_secondary = max(1, int(span / spacing))`
and interior lines `k = 1 .. num_secondary - 1` are generated only when
`num_secondary > 1`. -/
def bay_secondary_beams (cfg : FrameConfig) (x1 x2 y1 y2 z : ℚ) (i j s : ℕ) :
    List FrameMember :=
  if cfg.secondary_beam_direction = "Y" then
    let span := x2 - x1
    let num : ℤ := max 1 (py_int (span / cfg.secondary_beam_spacing))
    if 1 < num then
      let dy := span / (num : ℚ)
      (List.range' 1 (num - 1).toNat).map fun (k : ℕ) =>
        { name := s!"SEC_BEAM_X{i}_{i + 1}_Y{j}_{j + 1}_K{k}_S{s}"
          p1 := (x1 + (k : ℚ) * dy, y1, z)
          p2 := (x1 + (k : ℚ) * dy, y2, z) }
    else []
  else if cfg.secondary_beam_direction = "X" then
    let span := y2 - y1
    let num : ℤ := max 1 (py_int (span / cfg.secondary_beam_spacing))
    if 1 < num then
      let dx := span / (num : ℚ)
      (List.range' 1 (num - 1).toNat).map fun (k : ℕ) =>
        { name := s!"SEC_BEAM_X{i}_{i + 1}_Y{j}_{j + 1}_K{k}_S{s}"
          p1 := (x1, y1 + (k : ℚ) * dx, z)
          p2 := (x2, y1 + (k : ℚ) * dx, z) }
    else []
  else []

/-- Function `_create_secondary_beams`: the per-bay beams over every grid
cell. -/
def create_secondary_beams (cfg : FrameConfig) (grid_x grid_y : List ℚ)
    (z : ℚ) (s : ℕ) : List FrameMember :=
  (List.range (cfg.num_grid_lines_x - 1)).bind fun i =>
    (List.range (cfg.num_grid_lines_y - 1)).bind fun j =>
      bay_secondary_beams cfg (grid_x.getD i 0) (grid_x.getD (i + 1) 0)
        (grid_y.getD j 0) (grid_y.getD (j + 1) 0) z i j s

/-- Function `create_frame_beams`: per story, X main beams (when enabled and
direction allows), then Y main beams, then secondary beams, at the story top
elevation. -/
def create_frame_beams (cfg : FrameConfig) (sh : ℕ → Option ℚ) :
    List FrameMember :=
  if cfg.enable_frame_beams = false then []
  else
    let grid_x := generate_grid_coordinates cfg.num_grid_lines_x cfg.spacing_x
    let grid_y := generate_grid_coordinates cfg.num_grid_lines_y cfg.spacing_y
    (story_levels cfg sh).bind fun st =>
      (if cfg.beam_layout_main_x = true ∧
          (cfg.main_beam_direction = "X_ONLY" ∨ cfg.main_beam_direction = "BOTH")
       then x_main_beams cfg grid_x grid_y st.2.2 st.1 else []) ++
      (if cfg.beam_layout_main_y = true ∧
          (cfg.main_beam_direction = "Y_ONLY" ∨ cfg.main_beam_direction = "BOTH")
       then y_main_beams cfg grid_x grid_y st.2.2 st.1 else []) ++
      (if cfg.beam_layout_secondary = true
       then create_secondary_beams cfg grid_x grid_y st.2.2 st.1 else [])

/-- Configuration values of `config/config_frame.py`. -/
def frame_config : FrameConfig :=
  { num_grid_lines_x := 5
    num_grid_lines_y := 3
    spacing_x := 6
    spacing_y := 6
    num_stories := 10
    typical_story_height := 3
    bottom_story_height := 3
    column_grid_pattern := "ALL_INTERSECTIONS"
    main_beam_direction := "BOTH"
    beam_layout_main_x := true
    beam_layout_main_y := true
    beam_layout_secondary := true
    secondary_beam_spacing := 3
    secondary_beam_direction := "Y"
    enable_frame_columns := true
    enable_frame_beams := true }

/-- Story-height map built by `create_frame_structural_geometry`:
`BOTTOM_STORY_HEIGHT` for story 1, `TYPICAL_STORY_HEIGHT` for stories
`2 .. num_stories`. -/
def frame_story_heights (cfg : FrameConfig) : ℕ → Option ℚ := fun s =>
  if 1 ≤ s ∧ s ≤ cfg.num_stories then
    some (if 1 < s then cfg.typical_story_height else cfg.bottom_story_height)
  else none

end Etabs

namespace Etabs

/-! ## Theorems about the response spectrum -/

theorem rs_eta2_ge (zeta : ℝ) : 0.55 ≤ rs_eta2 zeta := le_max_left _ _

theorem rs_eta1_nonneg (zeta : ℝ) : 0 ≤ rs_eta1 zeta := le_max_left _ _

theorem rs_gamma_nonneg {zeta : ℝ} (hz : 0 ≤ zeta) : 0 ≤ rs_gamma zeta := by
  unfold rs_gamma
  have hd : (0 : ℝ) < 0.3 + 6.0 * zeta := by linarith
  have h2 : (-0.9 : ℝ) ≤ (0.05 - zeta) / (0.3 + 6.0 * zeta) := by
    rw [le_div_iff hd]; nlinarith
  linarith

theorem china_response_spectrum_div_g (T zeta alpha_max Tg g : ℝ) (hg : g ≠ 0) :
    china_response_spectrum T zeta alpha_max Tg g / g =
      max 0 (max (rs_alpha_branch T zeta alpha_max Tg) (0.20 * alpha_max)) := by
  unfold china_response_spectrum
  exact mul_div_cancel_right₀ _ hg

/-- C2: for `T ≥ 0`, `alpha_max ≥ 0` and any `zeta`, `Tg`, the coefficient
returned by `china_response_spectrum` (the result divided by `g`) is at least
`0.20 * alpha_max` and is never negative. -/
theorem china_response_spectrum_floor (T zeta alpha_max Tg g : ℝ)
    (hT : 0 ≤ T) (ham : 0 ≤ alpha_max) (hg : 0 < g) :
    0.20 * alpha_max ≤ china_response_spectrum T zeta alpha_max Tg g / g ∧
    0 ≤ china_response_spectrum T zeta alpha_max Tg g / g := by
  rw [china_response_spectrum_div_g T zeta alpha_max Tg g (ne_of_gt hg)]
  constructor
  · exact le_trans (le_max_right _ _) (le_max_right _ _)
  · exact le_max_left _ _

theorem rs_alpha_branch_monotoneOn {zeta alpha_max Tg : ℝ}
    (hz : 0 ≤ zeta) (ham : 0 ≤ alpha_max) (hTg : 0.1 ≤ Tg) :
    MonotoneOn (fun T => rs_alpha_branch T zeta alpha_max Tg) (Set.Icc 0 Tg) := by
  have hη : (0.55 : ℝ) ≤ rs_eta2 zeta := rs_eta2_ge zeta
  rintro T1 ⟨h1l, h1r⟩ T2 ⟨h2l, h2r⟩ h12
  show rs_alpha_branch T1 zeta alpha_max Tg ≤ rs_alpha_branch T2 zeta alpha_max Tg
  simp only [rs_alpha_branch]
  rw [if_neg (not_lt.2 h1l), if_neg (not_lt.2 h2l)]
  by_cases e1 : T1 = 0
  · rw [if_pos e1]
    by_cases e2 : T2 = 0
    · rw [if_pos e2]
    · rw [if_neg e2]
      by_cases b2 : T2 ≤ 0.1
      · rw [if_pos b2]
        refine le_min ?_ ?_
        · nlinarith [mul_nonneg (mul_nonneg
            (show (0:ℝ) ≤ 10.0 * (rs_eta2 zeta - 0.45) by linarith) h2l) ham]
        · nlinarith [mul_nonneg (show (0:ℝ) ≤ rs_eta2 zeta - 0.45 by linarith) ham]
      · rw [if_neg b2, if_pos h2r]
        nlinarith [mul_nonneg (show (0:ℝ) ≤ rs_eta2 zeta - 0.45 by linarith) ham]
  · have hT1 : 0 < T1 := lt_of_le_of_ne h1l (Ne.symm e1)
    have e2 : ¬ T2 = 0 := ne_of_gt (lt_of_lt_of_le hT1 h12)
    rw [if_neg e1, if_neg e2]
    by_cases b1 : T1 ≤ 0.1
    · rw [if_pos b1]
      by_cases b2 : T2 ≤ 0.1
      · rw [if_pos b2]
        refine min_le_min ?_ le_rfl
        nlinarith [mul_nonneg (mul_nonneg
          (show (0:ℝ) ≤ 10.0 * (rs_eta2 zeta - 0.45) by linarith)
          (show (0:ℝ) ≤ T2 - T1 by linarith)) ham]
      · rw [if_neg b2, if_pos h2r]
        exact min_le_right _ _
    · have b2 : ¬ T2 ≤ 0.1 := fun h => b1 (h12.trans h)
      rw [if_neg b1, if_pos h1r, if_neg b2, if_pos h2r]

theorem rs_alpha_branch_plateau {Tg : ℝ} (zeta alpha_max : ℝ) (hTg : 0.1 ≤ Tg) :
    rs_alpha_branch Tg zeta alpha_max Tg = rs_eta2 zeta * alpha_max := by
  have hTg0 : (0:ℝ) < Tg := by linarith
  unfold rs_alpha_branch
  rw [if_neg (not_lt.2 hTg0.le), if_neg (ne_of_gt hTg0)]
  by_cases b : Tg ≤ 0.1
  · have hb : Tg = 0.1 := le_antisymm b hTg
    rw [if_pos b, hb]
    have hramp : ((0.45:ℝ) + 10.0 * (rs_eta2 zeta - 0.45) * 0.1) = rs_eta2 zeta := by ring
    rw [hramp, min_self]
  · rw [if_neg b, if_pos le_rfl]

theorem rs_alpha_branch_descent {Tg T : ℝ} (zeta alpha_max : ℝ) (hTg : 0.1 ≤ Tg)
    (h1 : Tg < T) (h2 : T ≤ 5.0 * Tg) :
    rs_alpha_branch T zeta alpha_max Tg
      = (Tg / T) ^ rs_gamma zeta * rs_eta2 zeta * alpha_max := by
  have hT0 : 0 < T := by linarith
  unfold rs_alpha_branch
  rw [if_neg (not_lt.2 hT0.le), if_neg (ne_of_gt hT0),
    if_neg (not_le.2 (show (0.1:ℝ) < T by linarith)),
    if_neg (not_le.2 h1), if_pos h2]

theorem rs_alpha_branch_tail {Tg T : ℝ} (zeta alpha_max : ℝ) (hTg : 0.1 ≤ Tg)
    (h1 : 5.0 * Tg < T) (h2 : T ≤ 6.0) :
    rs_alpha_branch T zeta alpha_max Tg
      = ((0.2 : ℝ) ^ rs_gamma zeta * rs_eta2 zeta - rs_eta1 zeta * (T - 5.0 * Tg))
          * alpha_max := by
  have hT0 : 0 < T := by linarith
  unfold rs_alpha_branch
  rw [if_neg (not_lt.2 hT0.le), if_neg (ne_of_gt hT0),
    if_neg (not_le.2 (show (0.1:ℝ) < T by linarith)),
    if_neg (not_le.2 (show Tg < T by linarith)), if_neg (not_le.2 h1), if_pos h2]

theorem rs_alpha_branch_antitoneOn {zeta alpha_max Tg : ℝ}
    (hz : 0 ≤ zeta) (ham : 0 ≤ alpha_max) (hTg : 0.1 ≤ Tg) :
    AntitoneOn (fun T => rs_alpha_branch T zeta alpha_max Tg) (Set.Icc Tg 6.0) := by
  have hη : (0.55 : ℝ) ≤ rs_eta2 zeta := rs_eta2_ge zeta
  have hη0 : (0:ℝ) ≤ rs_eta2 zeta := by linarith
  have hη1 : (0:ℝ) ≤ rs_eta1 zeta := rs_eta1_nonneg zeta
  have hγ : (0:ℝ) ≤ rs_gamma zeta := rs_gamma_nonneg hz
  have hTg0 : (0:ℝ) < Tg := by linarith
  have hηam : (0:ℝ) ≤ rs_eta2 zeta * alpha_max := mul_nonneg hη0 ham
  rintro T1 ⟨h1l, h1r⟩ T2 ⟨h2l, h2r⟩ h12
  show rs_alpha_branch T2 zeta alpha_max Tg ≤ rs_alpha_branch T1 zeta alpha_max Tg
  by_cases c2 : T2 ≤ Tg
  · have e1 : T1 = Tg := le_antisymm (h12.trans c2) h1l
    have e2 : T2 = Tg := le_antisymm c2 h2l
    rw [e1, e2]
  · push_neg at c2
    by_cases d2 : T2 ≤ 5.0 * Tg
    · rw [rs_alpha_branch_descent zeta alpha_max hTg c2 d2]
      by_cases c1 : T1 ≤ Tg
      · have e1 : T1 = Tg := le_antisymm c1 h1l
        rw [e1, rs_alpha_branch_plateau zeta alpha_max hTg]
        have hb : (Tg / T2) ^ rs_gamma zeta ≤ 1 := by
          apply Real.rpow_le_one (div_nonneg hTg0.le (by linarith)) ?_ hγ
          rw [div_le_one (by linarith)]
          linarith
        nlinarith [mul_nonneg (sub_nonneg.2 hb) hηam]
      · push_neg at c1
        have d1 : T1 ≤ 5.0 * Tg := h12.trans d2
        rw [rs_alpha_branch_descent zeta alpha_max hTg c1 d1]
        have hdiv : Tg / T2 ≤ Tg / T1 :=
          div_le_div_of_nonneg_left hTg0.le (by linarith) h12
        have hb : (Tg / T2) ^ rs_gamma zeta ≤ (Tg / T1) ^ rs_gamma zeta :=
          Real.rpow_le_rpow (div_nonneg hTg0.le (by linarith)) hdiv hγ
        nlinarith [mul_nonneg (sub_nonneg.2 hb) hηam]
    · push_neg at d2
      rw [rs_alpha_branch_tail zeta alpha_max hTg d2 h2r]
      have h02 : ((0.2:ℝ)) ^ rs_gamma zeta ≤ 1 :=
        Real.rpow_le_one (by norm_num) (by norm_num) hγ
      have hsub : (0:ℝ) ≤ rs_eta1 zeta * (T2 - 5.0 * Tg) := mul_nonneg hη1 (by linarith)
      by_cases c1 : T1 ≤ Tg
      · have e1 : T1 = Tg := le_antisymm c1 h1l
        rw [e1, rs_alpha_branch_plateau zeta alpha_max hTg]
        nlinarith [mul_nonneg (add_nonneg (mul_nonneg (sub_nonneg.2 h02) hη0) hsub) ham]
      · push_neg at c1
        by_cases d1 : T1 ≤ 5.0 * Tg
        · rw [rs_alpha_branch_descent zeta alpha_max hTg c1 d1]
          have h5 : Tg / (5.0 * Tg) = 0.2 := by
            rw [div_eq_iff (by linarith : (5.0:ℝ) * Tg ≠ 0)]; ring
          have hdiv : (0.2:ℝ) ≤ Tg / T1 := by
            rw [← h5]
            exact div_le_div_of_nonneg_left hTg0.le (by linarith) d1
          have hb : ((0.2:ℝ)) ^ rs_gamma zeta ≤ (Tg / T1) ^ rs_gamma zeta :=
            Real.rpow_le_rpow (by norm_num) hdiv hγ
          nlinarith [mul_nonneg (add_nonneg (mul_nonneg (sub_nonneg.2 hb) hη0) hsub) ham]
        · push_neg at d1
          rw [rs_alpha_branch_tail zeta alpha_max hTg d1 h1r]
          nlinarith [mul_nonneg (mul_nonneg hη1
            (show (0:ℝ) ≤ T2 - T1 by linarith)) ham]

/-- C3: for fixed valid parameters (`zeta ≥ 0`, `alpha_max ≥ 0`, `Tg ≥ 0.1`,
`g > 0`) the coefficient function `T ↦ china_response_spectrum T … / g` is
non-decreasing on `[0, Tg]`, non-increasing on `[Tg, 6]`, its value at `T = Tg`
equals `eta2 * alpha_max`, and the power-law descent expression evaluated at
`T = Tg` gives the same value (continuity at the plateau boundary). -/
theorem china_response_spectrum_monotone_plateau (zeta alpha_max Tg g : ℝ)
    (hz : 0 ≤ zeta) (ham : 0 ≤ alpha_max) (hTg : 0.1 ≤ Tg) (hg : 0 < g) :
    MonotoneOn (fun T => china_response_spectrum T zeta alpha_max Tg g / g)
      (Set.Icc 0 Tg) ∧
    AntitoneOn (fun T => china_response_spectrum T zeta alpha_max Tg g / g)
      (Set.Icc Tg 6.0) ∧
    china_response_spectrum Tg zeta alpha_max Tg g / g = rs_eta2 zeta * alpha_max ∧
    (Tg / Tg) ^ rs_gamma zeta * rs_eta2 zeta * alpha_max
      = rs_eta2 zeta * alpha_max := by
  have hη : (0.55 : ℝ) ≤ rs_eta2 zeta := rs_eta2_ge zeta
  have key : ∀ T, china_response_spectrum T zeta alpha_max Tg g / g
      = max 0 (max (rs_alpha_branch T zeta alpha_max Tg) (0.20 * alpha_max)) :=
    fun T => china_response_spectrum_div_g T zeta alpha_max Tg g (ne_of_gt hg)
  refine ⟨?_, ?_, ?_, ?_⟩
  · intro T1 h1 T2 h2 h12
    show china_response_spectrum T1 zeta alpha_max Tg g / g
      ≤ china_response_spectrum T2 zeta alpha_max Tg g / g
    rw [key, key]
    exact max_le_max le_rfl
      (max_le_max (rs_alpha_branch_monotoneOn hz ham hTg h1 h2 h12) le_rfl)
  · intro T1 h1 T2 h2 h12
    show china_response_spectrum T2 zeta alpha_max Tg g / g
      ≤ china_response_spectrum T1 zeta alpha_max Tg g / g
    rw [key, key]
    exact max_le_max le_rfl
      (max_le_max (rs_alpha_branch_antitoneOn hz ham hTg h1 h2 h12) le_rfl)
  · have hfloor : 0.20 * alpha_max ≤ rs_eta2 zeta * alpha_max := by
      nlinarith [mul_nonneg (show (0:ℝ) ≤ rs_eta2 zeta - 0.20 by linarith) ham]
    have hpos : (0:ℝ) ≤ rs_eta2 zeta * alpha_max := mul_nonneg (by linarith) ham
    rw [key, rs_alpha_branch_plateau zeta alpha_max hTg, max_eq_left hfloor,
      max_eq_right hpos]
  · rw [div_self (ne_of_gt (show (0:ℝ) < Tg by linarith)), Real.one_rpow, one_mul]

theorem china_response_spectrum_monotone_plateau_witness :
    (0 : ℝ) ≤ 0.05 ∧ (0 : ℝ) ≤ 0.08 ∧ (0.1 : ℝ) ≤ 0.65 ∧ (0 : ℝ) < 9.80665 ∧
    (MonotoneOn (fun T => china_response_spectrum T 0.05 0.08 0.65 9.80665 / 9.80665)
      (Set.Icc 0 0.65) ∧
     AntitoneOn (fun T => china_response_spectrum T 0.05 0.08 0.65 9.80665 / 9.80665)
      (Set.Icc 0.65 6.0) ∧
     china_response_spectrum 0.65 0.05 0.08 0.65 9.80665 / 9.80665
       = rs_eta2 0.05 * 0.08 ∧
     ((0.65 : ℝ) / 0.65) ^ rs_gamma 0.05 * rs_eta2 0.05 * 0.08 = rs_eta2 0.05 * 0.08) :=
  ⟨by norm_num, by norm_num, by norm_num, by norm_num,
   china_response_spectrum_monotone_plateau 0.05 0.08 0.65 9.80665
     (by norm_num) (by norm_num) (by norm_num) (by norm_num)⟩

theorem rs_alpha_branch_of_neg {T : ℝ} (zeta alpha_max Tg : ℝ) (hT : T < 0) :
    rs_alpha_branch T zeta alpha_max Tg = 0 := by
  unfold rs_alpha_branch
  rw [if_pos hT]

/-- C1 counterexample: at `T = -1` (with `zeta = 0.05`, `alpha_max = 0.08`,
`Tg = 0.65`, `g = 9.80665`) the function does not return `0`: the floor
`max(current_alpha_coeff, 0.20 * alpha_max)` lifts the branch value `0` to
`0.20 * alpha_max`, so the result is `0.016 * 9.80665 ≠ 0`. -/
theorem china_response_spectrum_neg_counterexample :
    china_response_spectrum (-1) 0.05 0.08 0.65 9.80665 ≠ 0 := by
  unfold china_response_spectrum
  rw [rs_alpha_branch_of_neg 0.05 0.08 0.65 (by norm_num)]
  rw [max_eq_right (by norm_num : (0 : ℝ) ≤ 0.20 * 0.08),
    max_eq_right (by norm_num : (0 : ℝ) ≤ 0.20 * 0.08)]
  norm_num

/-- C1 amended: for every `T < 0`, the branch coefficient is `0`, and after the
two floors the returned spectral acceleration is `max 0 (0.20 * alpha_max) * g`
(hence `0` exactly when `0.20 * alpha_max * g ≤ 0`, not unconditionally). -/
theorem china_response_spectrum_of_neg (T zeta alpha_max Tg g : ℝ) (hT : T < 0) :
    rs_alpha_branch T zeta alpha_max Tg = 0 ∧
    china_response_spectrum T zeta alpha_max Tg g = max 0 (0.20 * alpha_max) * g := by
  refine ⟨rs_alpha_branch_of_neg zeta alpha_max Tg hT, ?_⟩
  unfold china_response_spectrum
  rw [rs_alpha_branch_of_neg zeta alpha_max Tg hT]
  rcases le_total (0 : ℝ) (0.20 * alpha_max) with h | h
  · rw [max_eq_right h, max_eq_right h]
  · rw [max_eq_left h, max_self]

theorem china_response_spectrum_of_neg_witness :
    (-1 : ℝ) < 0 ∧
    (rs_alpha_branch (-1) 0.05 0.08 0.65 = 0 ∧
     china_response_spectrum (-1) 0.05 0.08 0.65 9.80665 = max 0 (0.20 * 0.08) * 9.80665) :=
  ⟨by norm_num, china_response_spectrum_of_neg (-1) 0.05 0.08 0.65 9.80665 (by norm_num)⟩

/-! ### Theorems about the return-code gate -/

theorem benign_any_of_setwall {func_name : String}
    (h : str_contains_sub func_name "SetWall" = true) :
    (benign_code1_keywords.any fun kw => str_contains_sub func_name kw) = true :=
  List.any_eq_true.2 ⟨"SetWall", by simp [benign_code1_keywords], h⟩

/-- C4: a call whose name contains the substring "SetWall", checked with the
default ok-codes `(0,)`, returns the code when the status (bare integer or
first tuple element) is 1; the same call with status 2 takes the fatal branch
and terminates the process, since 2 is neither 1 (benign allow-list) nor in
the ok-set. -/
theorem check_ret_setwall_code1_ok_code2_fatal (func_name : String) (rest : List ℤ)
    (h : str_contains_sub func_name "SetWall" = true) :
    check_ret (.int 1) func_name [0] = .ret 1 ∧
    check_ret (.tuple (1 :: rest)) func_name [0] = .ret 1 ∧
    check_ret (.int 2) func_name [0] = .exit ∧
    check_ret (.tuple (2 :: rest)) func_name [0] = .exit := by
  have hb := benign_any_of_setwall h
  refine ⟨?_, ?_, ?_, ?_⟩ <;>
    simp [check_ret, ret_code, hb]

theorem check_ret_setwall_witness :
    str_contains_sub "PropArea.SetWall(Wall-200)" "SetWall" = true ∧
    (check_ret (.int 1) "PropArea.SetWall(Wall-200)" [0] = .ret 1 ∧
     check_ret (.tuple [1, 0]) "PropArea.SetWall(Wall-200)" [0] = .ret 1 ∧
     check_ret (.int 2) "PropArea.SetWall(Wall-200)" [0] = .exit ∧
     check_ret (.tuple [2, 0]) "PropArea.SetWall(Wall-200)" [0] = .exit) :=
  ⟨by decide,
   check_ret_setwall_code1_ok_code2_fatal "PropArea.SetWall(Wall-200)" [0] (by decide)⟩

/-! ### Theorems about story-drift extraction -/

theorem drift_records_append (l1 l2 : List DriftInput) :
    drift_records (l1 ++ l2) = drift_records l1 ++ drift_records l2 :=
  List.map_append _ _ _

theorem drift_max_fold_append_irrelevant (recs : List DriftRecord)
    (re : DriftRecord) (axis : String) (h : re.direction ≠ axis) :
    drift_max_fold (recs ++ [re]) axis = drift_max_fold recs axis := by
  unfold drift_max_fold
  rw [List.foldl_append]
  simp [drift_max_step, h]

theorem drift_max_fold_trivial (axis : String) :
    ∀ recs : List DriftRecord,
      (∀ r ∈ recs, r.direction ≠ axis ∨ r.drift_rad = 0) →
      drift_max_fold recs axis = (0, none)
  | [], _ => rfl
  | r :: rest, h => by
    have hr := h r (List.mem_cons_self r rest)
    have hstep : drift_max_step axis (0, none) r = (0, none) := by
      rcases hr with h1 | h1
      · simp [drift_max_step, h1]
      · simp [drift_max_step, h1]
    have ih := drift_max_fold_trivial axis rest
      (fun r2 hr2 => h r2 (List.mem_cons_of_mem _ hr2))
    unfold drift_max_fold at ih ⊢
    rw [List.foldl_cons, hstep]
    exact ih

/-- C5: every record's per-mille drift is its radian drift times 1000 (after
the 4-decimal rounding the source applies to the stored record); a direction
maximum is classified compliant exactly when its absolute per-mille value does
not exceed the limit; concretely with limit 1.0‰, a raw drift of 0.0012 rad
becomes exactly 1.2‰ and is flagged non-compliant, while 0.0008 rad becomes
0.8‰ and is compliant. -/
theorem extract_story_drifts_conversion_and_classification :
    (∀ (inputs : List DriftInput) (limit : ℚ) (r : DriftRecord),
       r ∈ (extract_story_drifts inputs limit).records →
       r.drift_permil = round4 (r.drift_rad * 1000)) ∧
    (∀ (inputs : List DriftInput) (limit : ℚ) (axis : String) (info : MaxDriftInfo),
       axis_max_result (drift_records inputs) limit axis = some info →
       (info.is_ok = true ↔ info.abs_value_permil ≤ limit)) ∧
    (extract_story_drifts [⟨"Story1", "RS-X", "X", 0.0012⟩] 1).max_drift_X
      = some ⟨1.2, 1.2, "Story1", "RS-X", false, 1⟩ ∧
    (extract_story_drifts [⟨"Story1", "RS-X", "X", 0.0008⟩] 1).max_drift_X
      = some ⟨0.8, 0.8, "Story1", "RS-X", true, 1⟩ := by
  refine ⟨?_, ?_, ?_, ?_⟩
  · intro inputs limit r hr
    simp only [extract_story_drifts, drift_records, List.mem_map] at hr
    obtain ⟨a, -, rfl⟩ := hr
    rfl
  · intro inputs limit axis info h
    unfold axis_max_result at h
    split at h
    · cases h
    · split at h
      · cases h
      · injection h with h2
        subst h2
        simp
  · norm_num [extract_story_drifts, drift_records, axis_max_result,
      drift_max_fold, drift_max_step, round4, round_half_even,
      show dir_key_of "X" = "X" from by decide]
    rw [abs_of_nonneg (by norm_num : (0:ℚ) ≤ 6/5)]
    norm_num
  · norm_num [extract_story_drifts, drift_records, axis_max_result,
      drift_max_fold, drift_max_step, round4, round_half_even,
      show dir_key_of "X" = "X" from by decide]
    rw [abs_of_nonneg (by norm_num : (0:ℚ) ≤ 4/5)]
    norm_num

theorem extract_story_drifts_conversion_witness :
    ((⟨"Story1", "RS-X", "X", 1.2, 0.0012⟩ : DriftRecord) ∈
       (extract_story_drifts [⟨"Story1", "RS-X", "X", 0.0012⟩] 1).records) ∧
    (⟨"Story1", "RS-X", "X", 1.2, 0.0012⟩ : DriftRecord).drift_permil
      = round4 ((⟨"Story1", "RS-X", "X", 1.2, 0.0012⟩ : DriftRecord).drift_rad * 1000) := by
  have hmem : (⟨"Story1", "RS-X", "X", 1.2, 0.0012⟩ : DriftRecord) ∈
      (extract_story_drifts [⟨"Story1", "RS-X", "X", 0.0012⟩] 1).records := by
    norm_num [extract_story_drifts, drift_records, round4, round_half_even,
      show dir_key_of "X" = "X" from by decide]
  exact ⟨hmem,
    extract_story_drifts_conversion_and_classification.1 _ 1 _ hmem⟩

/-- C10: records whose direction token does not normalise to X or Y never
influence the per-direction maxima nor the overall verdict; and when a
non-empty record set contains no X- or Y-classified record with non-zero
drift, both direction maxima are `None` and the overall status is the passing
value (the `all` is vacuously true). -/
theorem extract_story_drifts_unknown_directions :
    (∀ (inputs : List DriftInput) (extra : DriftInput) (limit : ℚ),
       dir_key_of extra.direction ≠ "X" → dir_key_of extra.direction ≠ "Y" →
       (extract_story_drifts (inputs ++ [extra]) limit).max_drift_X
         = (extract_story_drifts inputs limit).max_drift_X ∧
       (extract_story_drifts (inputs ++ [extra]) limit).max_drift_Y
         = (extract_story_drifts inputs limit).max_drift_Y ∧
       (extract_story_drifts (inputs ++ [extra]) limit).overall_status
         = (extract_story_drifts inputs limit).overall_status) ∧
    (∀ (inputs : List DriftInput) (limit : ℚ),
       inputs ≠ [] →
       (∀ r ∈ inputs,
          (dir_key_of r.direction ≠ "X" ∧ dir_key_of r.direction ≠ "Y") ∨ r.drift = 0) →
       (extract_story_drifts inputs limit).max_drift_X = none ∧
       (extract_story_drifts inputs limit).max_drift_Y = none ∧
       (extract_story_drifts inputs limit).overall_status = "满足规范要求") := by
  constructor
  · intro inputs extra limit hX hY
    have h1 : drift_records (inputs ++ [extra]) = drift_records inputs ++
        [⟨extra.story, extra.load_case, dir_key_of extra.direction,
          round4 (extra.drift * 1000), extra.drift⟩] := by
      rw [drift_records_append]; rfl
    have eX : axis_max_result (drift_records (inputs ++ [extra])) limit "X"
        = axis_max_result (drift_records inputs) limit "X" := by
      unfold axis_max_result
      rw [h1, drift_max_fold_append_irrelevant _ _ _ hX]
    have eY : axis_max_result (drift_records (inputs ++ [extra])) limit "Y"
        = axis_max_result (drift_records inputs) limit "Y" := by
      unfold axis_max_result
      rw [h1, drift_max_fold_append_irrelevant _ _ _ hY]
    refine ⟨?_, ?_, ?_⟩ <;> simp only [extract_story_drifts, eX, eY]
  · intro inputs limit hne h
    have hX : ∀ r ∈ drift_records inputs, r.direction ≠ "X" ∨ r.drift_rad = 0 := by
      intro r hr
      simp only [drift_records, List.mem_map] at hr
      obtain ⟨a, ha, rfl⟩ := hr
      rcases h a ha with ⟨h1, -⟩ | h1
      · exact Or.inl h1
      · exact Or.inr h1
    have hY : ∀ r ∈ drift_records inputs, r.direction ≠ "Y" ∨ r.drift_rad = 0 := by
      intro r hr
      simp only [drift_records, List.mem_map] at hr
      obtain ⟨a, ha, rfl⟩ := hr
      rcases h a ha with ⟨-, h1⟩ | h1
      · exact Or.inl h1
      · exact Or.inr h1
    have aX : axis_max_result (drift_records inputs) limit "X" = none := by
      unfold axis_max_result
      rw [drift_max_fold_trivial "X" _ hX]
    have aY : axis_max_result (drift_records inputs) limit "Y" = none := by
      unfold axis_max_result
      rw [drift_max_fold_trivial "Y" _ hY]
    refine ⟨?_, ?_, ?_⟩ <;> simp only [extract_story_drifts, aX, aY] <;> rfl

theorem extract_story_drifts_unknown_directions_witness :
    (dir_key_of "R3" ≠ "X" ∧ dir_key_of "R3" ≠ "Y" ∧
     ((extract_story_drifts ([⟨"S1", "RS-X", "RZ", 0.001⟩] ++
         [⟨"S2", "RS-Y", "R3", 0.002⟩]) 1).max_drift_X
        = (extract_story_drifts [⟨"S1", "RS-X", "RZ", 0.001⟩] 1).max_drift_X ∧
      (extract_story_drifts ([⟨"S1", "RS-X", "RZ", 0.001⟩] ++
         [⟨"S2", "RS-Y", "R3", 0.002⟩]) 1).max_drift_Y
        = (extract_story_drifts [⟨"S1", "RS-X", "RZ", 0.001⟩] 1).max_drift_Y ∧
      (extract_story_drifts ([⟨"S1", "RS-X", "RZ", 0.001⟩] ++
         [⟨"S2", "RS-Y", "R3", 0.002⟩]) 1).overall_status
        = (extract_story_drifts [⟨"S1", "RS-X", "RZ", 0.001⟩] 1).overall_status)) ∧
    ([⟨"S1", "RS-X", "RZ", 0.001⟩, ⟨"S2", "RS-X", "X", 0⟩] ≠ ([] : List DriftInput) ∧
     ((extract_story_drifts [⟨"S1", "RS-X", "RZ", 0.001⟩, ⟨"S2", "RS-X", "X", 0⟩]
         1).max_drift_X = none ∧
      (extract_story_drifts [⟨"S1", "RS-X", "RZ", 0.001⟩, ⟨"S2", "RS-X", "X", 0⟩]
         1).max_drift_Y = none ∧
      (extract_story_drifts [⟨"S1", "RS-X", "RZ", 0.001⟩, ⟨"S2", "RS-X", "X", 0⟩]
         1).overall_status = "满足规范要求")) := by
  have hprop : ∀ r ∈ [(⟨"S1", "RS-X", "RZ", 0.001⟩ : DriftInput),
      ⟨"S2", "RS-X", "X", 0⟩],
      (dir_key_of r.direction ≠ "X" ∧ dir_key_of r.direction ≠ "Y") ∨ r.drift = 0 := by
    intro r hr
    rcases List.mem_cons.1 hr with rfl | hr2
    · exact Or.inl ⟨by decide, by decide⟩
    · rcases List.mem_cons.1 hr2 with rfl | hr3
      · exact Or.inr rfl
      · cases hr3
  refine ⟨⟨by decide, by decide, ?_⟩, ⟨by simp, ?_⟩⟩
  · exact extract_story_drifts_unknown_directions.1
      [⟨"S1", "RS-X", "RZ", 0.001⟩] ⟨"S2", "RS-Y", "R3", 0.002⟩ 1 (by decide) (by decide)
  · exact extract_story_drifts_unknown_directions.2
      [⟨"S1", "RS-X", "RZ", 0.001⟩, ⟨"S2", "RS-X", "X", 0⟩] 1 (by simp) hprop

/-! ### Theorems about the frame generators -/

theorem length_bind_const {α β : Type} (l : List α) (f : α → List β) (k : ℕ)
    (h : ∀ a ∈ l, (f a).length = k) : (l.bind f).length = l.length * k := by
  induction l with
  | nil => simp
  | cons a t ih =>
    simp only [List.cons_bind, List.length_append, List.length_cons]
    rw [h a (List.mem_cons_self a t), ih fun b hb => h b (List.mem_cons_of_mem a hb)]
    ring

theorem story_levels_from_length (sh : ℕ → Option ℚ) (typ : ℚ) :
    ∀ (cum : ℚ) (s n : ℕ), (story_levels_from sh typ cum s n).length = n
  | _, _, 0 => rfl
  | cum, s, n + 1 => by
    unfold story_levels_from
    simp [story_levels_from_length sh typ (cum + ((sh s).getD typ)) (s + 1) n]

theorem generate_grid_coordinates_length (n : ℕ) (s : ℚ) :
    (generate_grid_coordinates n s).length = n := by
  unfold generate_grid_coordinates
  rw [List.length_map, List.length_range]

/-! ### Theorems about the shear-wall layout -/

theorem list_min_rect (a b : ℚ) (h : a ≤ b) : list_min [a, b, b, a] = a := by
  simp [list_min, min_eq_left h]

theorem list_max_rect (a b : ℚ) (h : a ≤ b) : list_max [a, b, b, a] = b := by
  simp [list_max, max_eq_right h, max_eq_left h]

theorem list_min_band (a b : ℚ) (h : a ≤ b) : list_min [a, a, b, b] = a := by
  simp [list_min, min_eq_left h]

theorem list_max_band (a b : ℚ) (h : a ≤ b) : list_max [a, a, b, b] = b := by
  simp [list_max, max_eq_right h]

theorem isInfix_bind_of_mem {α β : Type} {a : α} {l : List α} (f : α → List β)
    (h : a ∈ l) : List.IsInfix (f a) (l.bind f) := by
  obtain ⟨s, t, rfl⟩ := List.append_of_mem h
  refine ⟨s.bind f, t.bind f, ?_⟩
  simp [List.append_bind, List.cons_bind]

theorem isInfix_append_left_of_isInfix {α : Type} {l L L2 : List α}
    (h : List.IsInfix l L) : List.IsInfix l (L ++ L2) := by
  obtain ⟨s, t, rfl⟩ := h
  exact ⟨s, t ++ L2, by simp⟩

theorem isInfix_append_right_of_isInfix {α : Type} {l L L2 : List α}
    (h : List.IsInfix l L) : List.IsInfix l (L2 ++ L) := by
  obtain ⟨s, t, rfl⟩ := h
  exact ⟨L2 ++ s, t, by simp⟩

theorem generate_grid_coordinates_getElem (n : ℕ) (sp : ℚ) (i : ℕ)
    (h : i < (generate_grid_coordinates n sp).length) :
    (generate_grid_coordinates n sp)[i] = (i : ℚ) * sp := by
  simp [generate_grid_coordinates]

theorem generate_grid_coordinates_getD (n : ℕ) (sp : ℚ) (i : ℕ) (h : i < n) :
    (generate_grid_coordinates n sp).getD i 0 = (i : ℚ) * sp := by
  have hl : i < (generate_grid_coordinates n sp).length := by
    rw [generate_grid_coordinates_length]; exact h
  rw [List.getD_eq_getElem _ _ hl]
  exact generate_grid_coordinates_getElem n sp i hl

theorem mem_enum_grid (n : ℕ) (sp : ℚ) (i : ℕ) (h : i < n) :
    (i, (i : ℚ) * sp) ∈ (generate_grid_coordinates n sp).enum := by
  have hl : i < (generate_grid_coordinates n sp).enum.length := by
    simp [List.enum_length, generate_grid_coordinates_length, h]
  have he : (generate_grid_coordinates n sp).enum[i] = (i, (i : ℚ) * sp) := by
    rw [List.getElem_enum]
    rw [generate_grid_coordinates_getElem]
  exact he ▸ List.getElem_mem hl

/-- C6: for every bay between consecutive grid lines, in either orthogonal
direction, the layout contains the three co-linear segments emitted for that
bay (pier, coupling beam, pier); their extents along the bay axis are
`[X0, X0+S/3]`, `[X0+S/3, X0+2S/3]`, `[X0+2S/3, X0+S]` — each of length
exactly `S/3`, contiguous, non-overlapping, and covering the bay exactly. -/
theorem generate_shear_wall_planar_layout_bay_thirds
    (nx ny : ℕ) (sx sy : ℚ) (hsx : 0 < sx) (hsy : 0 < sy) (ix iy : ℕ) :
    (ix + 1 < nx → iy < ny →
     List.IsInfix
       (h_bay_segments sx ((ix : ℚ) * sx) (((ix : ℚ) + 1) * sx) ((iy : ℚ) * sy) ix iy)
       (generate_shear_wall_planar_layout nx ny sx sy) ∧
     (h_bay_segments sx ((ix : ℚ) * sx) (((ix : ℚ) + 1) * sx) ((iy : ℚ) * sy) ix iy).map
         (fun p => (list_min p.x_coords, list_max p.x_coords))
       = [((ix : ℚ) * sx, (ix : ℚ) * sx + sx / 3),
          ((ix : ℚ) * sx + sx / 3, (ix : ℚ) * sx + 2 * (sx / 3)),
          ((ix : ℚ) * sx + 2 * (sx / 3), (ix : ℚ) * sx + sx)] ∧
     (h_bay_segments sx ((ix : ℚ) * sx) (((ix : ℚ) + 1) * sx) ((iy : ℚ) * sy) ix iy).map
         (fun p => p.y_coords)
       = [[(iy : ℚ) * sy, (iy : ℚ) * sy, (iy : ℚ) * sy, (iy : ℚ) * sy],
          [(iy : ℚ) * sy, (iy : ℚ) * sy, (iy : ℚ) * sy, (iy : ℚ) * sy],
          [(iy : ℚ) * sy, (iy : ℚ) * sy, (iy : ℚ) * sy, (iy : ℚ) * sy]] ∧
     (h_bay_segments sx ((ix : ℚ) * sx) (((ix : ℚ) + 1) * sx) ((iy : ℚ) * sy) ix iy).map
         (fun p => p.is_coupling_beam)
       = [false, true, false]) ∧
    (ix < nx → iy + 1 < ny →
     List.IsInfix
       (v_bay_segments sy ((iy : ℚ) * sy) (((iy : ℚ) + 1) * sy) ((ix : ℚ) * sx) ix iy)
       (generate_shear_wall_planar_layout nx ny sx sy) ∧
     (v_bay_segments sy ((iy : ℚ) * sy) (((iy : ℚ) + 1) * sy) ((ix : ℚ) * sx) ix iy).map
         (fun p => (list_min p.y_coords, list_max p.y_coords))
       = [((iy : ℚ) * sy, (iy : ℚ) * sy + sy / 3),
          ((iy : ℚ) * sy + sy / 3, (iy : ℚ) * sy + 2 * (sy / 3)),
          ((iy : ℚ) * sy + 2 * (sy / 3), (iy : ℚ) * sy + sy)] ∧
     (v_bay_segments sy ((iy : ℚ) * sy) (((iy : ℚ) + 1) * sy) ((ix : ℚ) * sx) ix iy).map
         (fun p => p.x_coords)
       = [[(ix : ℚ) * sx, (ix : ℚ) * sx, (ix : ℚ) * sx, (ix : ℚ) * sx],
          [(ix : ℚ) * sx, (ix : ℚ) * sx, (ix : ℚ) * sx, (ix : ℚ) * sx],
          [(ix : ℚ) * sx, (ix : ℚ) * sx, (ix : ℚ) * sx, (ix : ℚ) * sx]] ∧
     (v_bay_segments sy ((iy : ℚ) * sy) (((iy : ℚ) + 1) * sy) ((ix : ℚ) * sx) ix iy).map
         (fun p => p.is_coupling_beam)
       = [false, true, false]) := by
  constructor
  · intro hix hiy
    have hgx : (generate_grid_coordinates nx sx).getD ix 0 = (ix : ℚ) * sx :=
      generate_grid_coordinates_getD nx sx ix (by omega)
    have hgx1 : (generate_grid_coordinates nx sx).getD (ix + 1) 0
        = ((ix : ℚ) + 1) * sx := by
      rw [generate_grid_coordinates_getD nx sx (ix + 1) hix]
      push_cast
      ring
    refine ⟨?_, ?_, ?_, ?_⟩
    · have h0 := isInfix_bind_of_mem
        (fun p : ℕ × ℚ => (List.range (nx - 1)).bind fun i2 =>
          h_bay_segments sx ((generate_grid_coordinates nx sx).getD i2 0)
            ((generate_grid_coordinates nx sx).getD (i2 + 1) 0) p.2 i2 p.1)
        (mem_enum_grid ny sy iy hiy)
      have houter : List.IsInfix
          ((List.range (nx - 1)).bind fun i2 =>
            h_bay_segments sx ((generate_grid_coordinates nx sx).getD i2 0)
              ((generate_grid_coordinates nx sx).getD (i2 + 1) 0)
              ((iy : ℚ) * sy) i2 iy)
          (generate_shear_wall_planar_layout nx ny sx sy) := by
        unfold generate_shear_wall_planar_layout
        exact isInfix_append_left_of_isInfix h0
      have hinner := isInfix_bind_of_mem
        (fun i2 => h_bay_segments sx ((generate_grid_coordinates nx sx).getD i2 0)
          ((generate_grid_coordinates nx sx).getD (i2 + 1) 0) ((iy : ℚ) * sy) i2 iy)
        (List.mem_range.2 (show ix < nx - 1 by omega))
      simp only [hgx, hgx1] at hinner
      exact hinner.trans houter
    · have e1 : list_min [(ix : ℚ) * sx, (ix : ℚ) * sx + sx * (1 / 3),
          (ix : ℚ) * sx + sx * (1 / 3), (ix : ℚ) * sx] = (ix : ℚ) * sx :=
        list_min_rect _ _ (by linarith)
      have e2 : list_max [(ix : ℚ) * sx, (ix : ℚ) * sx + sx * (1 / 3),
          (ix : ℚ) * sx + sx * (1 / 3), (ix : ℚ) * sx] = (ix : ℚ) * sx + sx / 3 := by
        rw [list_max_rect _ _ (by linarith)]; ring
      have e3 : list_min [(ix : ℚ) * sx + sx * (1 / 3), (ix : ℚ) * sx + sx * 2 * (1 / 3),
          (ix : ℚ) * sx + sx * 2 * (1 / 3), (ix : ℚ) * sx + sx * (1 / 3)]
          = (ix : ℚ) * sx + sx / 3 := by
        rw [list_min_rect _ _ (by linarith)]; ring
      have e4 : list_max [(ix : ℚ) * sx + sx * (1 / 3), (ix : ℚ) * sx + sx * 2 * (1 / 3),
          (ix : ℚ) * sx + sx * 2 * (1 / 3), (ix : ℚ) * sx + sx * (1 / 3)]
          = (ix : ℚ) * sx + 2 * (sx / 3) := by
        rw [list_max_rect _ _ (by linarith)]; ring
      have e5 : list_min [(ix : ℚ) * sx + sx * 2 * (1 / 3), ((ix : ℚ) + 1) * sx,
          ((ix : ℚ) + 1) * sx, (ix : ℚ) * sx + sx * 2 * (1 / 3)]
          = (ix : ℚ) * sx + 2 * (sx / 3) := by
        rw [list_min_rect _ _ (by nlinarith)]; ring
      have e6 : list_max [(ix : ℚ) * sx + sx * 2 * (1 / 3), ((ix : ℚ) + 1) * sx,
          ((ix : ℚ) + 1) * sx, (ix : ℚ) * sx + sx * 2 * (1 / 3)]
          = (ix : ℚ) * sx + sx := by
        rw [list_max_rect _ _ (by nlinarith)]; ring
      simp only [h_bay_segments, List.map_cons, List.map_nil]
      rw [e1, e2, e3, e4, e5, e6]
    · simp [h_bay_segments]
    · simp [h_bay_segments]
  · intro hix hiy
    have hgy : (generate_grid_coordinates ny sy).getD iy 0 = (iy : ℚ) * sy :=
      generate_grid_coordinates_getD ny sy iy (by omega)
    have hgy1 : (generate_grid_coordinates ny sy).getD (iy + 1) 0
        = ((iy : ℚ) + 1) * sy := by
      rw [generate_grid_coordinates_getD ny sy (iy + 1) hiy]
      push_cast
      ring
    refine ⟨?_, ?_, ?_, ?_⟩
    · have h0 := isInfix_bind_of_mem
        (fun p : ℕ × ℚ => (List.range (ny - 1)).bind fun j2 =>
          v_bay_segments sy ((generate_grid_coordinates ny sy).getD j2 0)
            ((generate_grid_coordinates ny sy).getD (j2 + 1) 0) p.2 p.1 j2)
        (mem_enum_grid nx sx ix hix)
      have houter : List.IsInfix
          ((List.range (ny - 1)).bind fun j2 =>
            v_bay_segments sy ((generate_grid_coordinates ny sy).getD j2 0)
              ((generate_grid_coordinates ny sy).getD (j2 + 1) 0)
              ((ix : ℚ) * sx) ix j2)
          (generate_shear_wall_planar_layout nx ny sx sy) := by
        unfold generate_shear_wall_planar_layout
        exact isInfix_append_right_of_isInfix h0
      have hinner := isInfix_bind_of_mem
        (fun j2 => v_bay_segments sy ((generate_grid_coordinates ny sy).getD j2 0)
          ((generate_grid_coordinates ny sy).getD (j2 + 1) 0) ((ix : ℚ) * sx) ix j2)
        (List.mem_range.2 (show iy < ny - 1 by omega))
      simp only [hgy, hgy1] at hinner
      exact hinner.trans houter
    · have e1 : list_min [(iy : ℚ) * sy, (iy : ℚ) * sy + sy * (1 / 3),
          (iy : ℚ) * sy + sy * (1 / 3), (iy : ℚ) * sy] = (iy : ℚ) * sy :=
        list_min_rect _ _ (by linarith)
      have e2 : list_max [(iy : ℚ) * sy, (iy : ℚ) * sy + sy * (1 / 3),
          (iy : ℚ) * sy + sy * (1 / 3), (iy : ℚ) * sy] = (iy : ℚ) * sy + sy / 3 := by
        rw [list_max_rect _ _ (by linarith)]; ring
      have e3 : list_min [(iy : ℚ) * sy + sy * (1 / 3), (iy : ℚ) * sy + sy * 2 * (1 / 3),
          (iy : ℚ) * sy + sy * 2 * (1 / 3), (iy : ℚ) * sy + sy * (1 / 3)]
          = (iy : ℚ) * sy + sy / 3 := by
        rw [list_min_rect _ _ (by linarith)]; ring
      have e4 : list_max [(iy : ℚ) * sy + sy * (1 / 3), (iy : ℚ) * sy + sy * 2 * (1 / 3),
          (iy : ℚ) * sy + sy * 2 * (1 / 3), (iy : ℚ) * sy + sy * (1 / 3)]
          = (iy : ℚ) * sy + 2 * (sy / 3) := by
        rw [list_max_rect _ _ (by linarith)]; ring
      have e5 : list_min [(iy : ℚ) * sy + sy * 2 * (1 / 3), ((iy : ℚ) + 1) * sy,
          ((iy : ℚ) + 1) * sy, (iy : ℚ) * sy + sy * 2 * (1 / 3)]
          = (iy : ℚ) * sy + 2 * (sy / 3) := by
        rw [list_min_rect _ _ (by nlinarith)]; ring
      have e6 : list_max [(iy : ℚ) * sy + sy * 2 * (1 / 3), ((iy : ℚ) + 1) * sy,
          ((iy : ℚ) + 1) * sy, (iy : ℚ) * sy + sy * 2 * (1 / 3)]
          = (iy : ℚ) * sy + sy := by
        rw [list_max_rect _ _ (by nlinarith)]; ring
      simp only [v_bay_segments, List.map_cons, List.map_nil]
      rw [e1, e2, e3, e4, e5, e6]
    · simp [v_bay_segments]
    · simp [v_bay_segments]

theorem generate_shear_wall_planar_layout_bay_thirds_witness :
    (0 : ℚ) < 6 ∧ (0 + 1 : ℕ) < 5 ∧ (0 : ℕ) < 3 ∧
    (List.IsInfix
       (h_bay_segments 6 (((0 : ℕ) : ℚ) * 6) ((((0 : ℕ) : ℚ) + 1) * 6) (((0 : ℕ) : ℚ) * 6) 0 0)
       (generate_shear_wall_planar_layout 5 3 6 6) ∧
     (h_bay_segments 6 (((0 : ℕ) : ℚ) * 6) ((((0 : ℕ) : ℚ) + 1) * 6) (((0 : ℕ) : ℚ) * 6) 0 0).map
         (fun p => (list_min p.x_coords, list_max p.x_coords))
       = [(((0 : ℕ) : ℚ) * 6, ((0 : ℕ) : ℚ) * 6 + 6 / 3),
          (((0 : ℕ) : ℚ) * 6 + 6 / 3, ((0 : ℕ) : ℚ) * 6 + 2 * (6 / 3)),
          (((0 : ℕ) : ℚ) * 6 + 2 * (6 / 3), ((0 : ℕ) : ℚ) * 6 + 6)]) :=
  ⟨by norm_num, by norm_num, by norm_num,
   (((generate_shear_wall_planar_layout_bay_thirds 5 3 6 6 (by norm_num) (by norm_num)
      0 0).1 (by norm_num) (by norm_num)).1),
   (((generate_shear_wall_planar_layout_bay_thirds 5 3 6 6 (by norm_num) (by norm_num)
      0 0).1 (by norm_num) (by norm_num)).2.1)⟩
/-! ### Theorems about the mesh grids -/

theorem mem_strip_iff (a d x : ℚ) :
    ∀ n : ℕ, 0 < n → 0 ≤ d →
      ((∃ i : ℕ, i < n ∧ a + (i : ℚ) * d ≤ x ∧ x ≤ a + ((i : ℚ) + 1) * d) ↔
        (a ≤ x ∧ x ≤ a + (n : ℚ) * d)) := by
  intro n
  induction n with
  | zero => intro h; exact absurd h (lt_irrefl 0)
  | succ m ih =>
    intro _ hd
    by_cases hm : m = 0
    · subst hm
      constructor
      · rintro ⟨i, hi, h1, h2⟩
        have hi0 : i = 0 := by omega
        subst hi0
        push_cast at h1 h2 ⊢
        exact ⟨by linarith, by linarith⟩
      · rintro ⟨h1, h2⟩
        push_cast at h2
        exact ⟨0, by omega, by push_cast; linarith, by push_cast; linarith⟩
    · have hm0 : 0 < m := Nat.pos_of_ne_zero hm
      constructor
      · rintro ⟨i, hi, h1, h2⟩
        by_cases hin : i < m
        · have h3 := (ih hm0 hd).1 ⟨i, hin, h1, h2⟩
          refine ⟨h3.1, ?_⟩
          push_cast
          push_cast at h3
          nlinarith [h3.2]
        · have hieq : i = m := by omega
          subst hieq
          have him : (0 : ℚ) ≤ (i : ℚ) * d :=
            mul_nonneg (Nat.cast_nonneg i) hd
          refine ⟨by linarith, ?_⟩
          push_cast at h2 ⊢
          linarith
      · rintro ⟨h1, h2⟩
        by_cases hxm : x ≤ a + (m : ℚ) * d
        · obtain ⟨i, hi, hb⟩ := (ih hm0 hd).2 ⟨h1, hxm⟩
          exact ⟨i, by omega, hb⟩
        · push_neg at hxm
          refine ⟨m, by omega, hxm.le, ?_⟩
          push_cast at h2 ⊢
          linarith

/-- C7: with positive subdivision counts and an ordered bounding box,
`create_mesh_grid` returns exactly `H * V` sub-panels; each is the 4-point
planar rectangle of its `(i, j)` cell; and the union of the sub-panels'
bounding boxes is exactly the original panel's bounding box (the sub-panels
tile the ranges with no gap and no overlap beyond shared edges). Both
orientation branches are covered. -/
theorem create_mesh_grid_tiles
    (x_min x_max y_min y_max z_min z_max : ℚ) (H V : ℕ)
    (hH : 0 < H) (hV : 0 < V) (hx : x_min ≤ x_max) (hy : y_min ≤ y_max)
    (hz : z_min ≤ z_max) :
    ((create_mesh_grid x_min x_max y_min y_max z_min z_max H V "X").length
      = H * V ∧
     (∀ p ∈ create_mesh_grid x_min x_max y_min y_max z_min z_max H V "X",
       ∃ i j : ℕ, i < H ∧ j < V ∧
         p = ([x_min + (i : ℚ) * ((x_max - x_min) / (H : ℚ)),
               x_min + ((i : ℚ) + 1) * ((x_max - x_min) / (H : ℚ)),
               x_min + ((i : ℚ) + 1) * ((x_max - x_min) / (H : ℚ)),
               x_min + (i : ℚ) * ((x_max - x_min) / (H : ℚ))],
              [y_min, y_min, y_min, y_min],
              [z_min + (j : ℚ) * ((z_max - z_min) / (V : ℚ)),
               z_min + (j : ℚ) * ((z_max - z_min) / (V : ℚ)),
               z_min + ((j : ℚ) + 1) * ((z_max - z_min) / (V : ℚ)),
               z_min + ((j : ℚ) + 1) * ((z_max - z_min) / (V : ℚ))])) ∧
     (⋃ p ∈ create_mesh_grid x_min x_max y_min y_max z_min z_max H V "X",
        panel_bbox p)
       = Set.Icc x_min x_max ×ˢ (Set.Icc y_min y_min ×ˢ Set.Icc z_min z_max)) ∧
    ((create_mesh_grid x_min x_max y_min y_max z_min z_max H V "Y").length
      = H * V ∧
     (∀ p ∈ create_mesh_grid x_min x_max y_min y_max z_min z_max H V "Y",
       ∃ i j : ℕ, i < H ∧ j < V ∧
         p = ([x_min, x_min, x_min, x_min],
              [y_min + (i : ℚ) * ((y_max - y_min) / (H : ℚ)),
               y_min + ((i : ℚ) + 1) * ((y_max - y_min) / (H : ℚ)),
               y_min + ((i : ℚ) + 1) * ((y_max - y_min) / (H : ℚ)),
               y_min + (i : ℚ) * ((y_max - y_min) / (H : ℚ))],
              [z_min + (j : ℚ) * ((z_max - z_min) / (V : ℚ)),
               z_min + (j : ℚ) * ((z_max - z_min) / (V : ℚ)),
               z_min + ((j : ℚ) + 1) * ((z_max - z_min) / (V : ℚ)),
               z_min + ((j : ℚ) + 1) * ((z_max - z_min) / (V : ℚ))])) ∧
     (⋃ p ∈ create_mesh_grid x_min x_max y_min y_max z_min z_max H V "Y",
        panel_bbox p)
       = Set.Icc x_min x_min ×ˢ (Set.Icc y_min y_max ×ˢ Set.Icc z_min z_max)) := by
  have hH0 : (H : ℚ) ≠ 0 := Nat.cast_ne_zero.2 hH.ne'
  have hV0 : (V : ℚ) ≠ 0 := Nat.cast_ne_zero.2 hV.ne'
  have hdx : 0 ≤ (x_max - x_min) / (H : ℚ) :=
    div_nonneg (by linarith) (Nat.cast_nonneg H)
  have hdy : 0 ≤ (y_max - y_min) / (H : ℚ) :=
    div_nonneg (by linarith) (Nat.cast_nonneg H)
  have hdz : 0 ≤ (z_max - z_min) / (V : ℚ) :=
    div_nonneg (by linarith) (Nat.cast_nonneg V)
  have hHx : x_min + (H : ℚ) * ((x_max - x_min) / (H : ℚ)) = x_max := by
    field_simp
  have hHy : y_min + (H : ℚ) * ((y_max - y_min) / (H : ℚ)) = y_max := by
    field_simp
  have hVz : z_min + (V : ℚ) * ((z_max - z_min) / (V : ℚ)) = z_max := by
    field_simp
  have hdefX : create_mesh_grid x_min x_max y_min y_max z_min z_max H V "X"
      = (List.range H).bind fun (i : ℕ) => (List.range V).map fun (j : ℕ) =>
          ([x_min + (i : ℚ) * ((x_max - x_min) / (H : ℚ)),
            x_min + ((i : ℚ) + 1) * ((x_max - x_min) / (H : ℚ)),
            x_min + ((i : ℚ) + 1) * ((x_max - x_min) / (H : ℚ)),
            x_min + (i : ℚ) * ((x_max - x_min) / (H : ℚ))],
           [y_min, y_min, y_min, y_min],
           [z_min + (j : ℚ) * ((z_max - z_min) / (V : ℚ)),
            z_min + (j : ℚ) * ((z_max - z_min) / (V : ℚ)),
            z_min + ((j : ℚ) + 1) * ((z_max - z_min) / (V : ℚ)),
            z_min + ((j : ℚ) + 1) * ((z_max - z_min) / (V : ℚ))]) := by
    simp only [create_mesh_grid]
    rfl
  have hdefY : create_mesh_grid x_min x_max y_min y_max z_min z_max H V "Y"
      = (List.range H).bind fun (i : ℕ) => (List.range V).map fun (j : ℕ) =>
          ([x_min, x_min, x_min, x_min],
           [y_min + (i : ℚ) * ((y_max - y_min) / (H : ℚ)),
            y_min + ((i : ℚ) + 1) * ((y_max - y_min) / (H : ℚ)),
            y_min + ((i : ℚ) + 1) * ((y_max - y_min) / (H : ℚ)),
            y_min + (i : ℚ) * ((y_max - y_min) / (H : ℚ))],
           [z_min + (j : ℚ) * ((z_max - z_min) / (V : ℚ)),
            z_min + (j : ℚ) * ((z_max - z_min) / (V : ℚ)),
            z_min + ((j : ℚ) + 1) * ((z_max - z_min) / (V : ℚ)),
            z_min + ((j : ℚ) + 1) * ((z_max - z_min) / (V : ℚ))]) := by
    simp only [create_mesh_grid]
    rfl
  constructor
  · refine ⟨?_, ?_, ?_⟩
    · rw [hdefX, length_bind_const _ _ V
        (fun i _ => by rw [List.length_map, List.length_range]), List.length_range]
    · intro p hp
      rw [hdefX] at hp
      simp only [List.mem_bind, List.mem_map, List.mem_range] at hp
      obtain ⟨i, hi, j, hj, rfl⟩ := hp
      exact ⟨i, j, hi, hj, rfl⟩
    · ext ⟨x, y, z⟩
      simp only [Set.mem_iUnion, Set.mem_prod, Set.mem_Icc, exists_prop]
      constructor
      · rintro ⟨p, hp, hmem⟩
        rw [hdefX] at hp
        simp only [List.mem_bind, List.mem_map, List.mem_range] at hp
        obtain ⟨i, hi, j, hj, rfl⟩ := hp
        have hxi : x_min + (i : ℚ) * ((x_max - x_min) / (H : ℚ))
            ≤ x_min + ((i : ℚ) + 1) * ((x_max - x_min) / (H : ℚ)) :=
          add_le_add_left (mul_le_mul_of_nonneg_right (by linarith : (i : ℚ) ≤ (i : ℚ) + 1) hdx) x_min
        have hzj : z_min + (j : ℚ) * ((z_max - z_min) / (V : ℚ))
            ≤ z_min + ((j : ℚ) + 1) * ((z_max - z_min) / (V : ℚ)) :=
          add_le_add_left (mul_le_mul_of_nonneg_right (by linarith : (j : ℚ) ≤ (j : ℚ) + 1) hdz) z_min
        unfold panel_bbox at hmem
        rw [list_min_rect _ _ hxi, list_max_rect _ _ hxi,
          list_min_rect y_min y_min le_rfl, list_max_rect y_min y_min le_rfl,
          list_min_band _ _ hzj, list_max_band _ _ hzj] at hmem
        simp only [Set.mem_prod, Set.mem_Icc] at hmem
        obtain ⟨⟨hx1, hx2⟩, ⟨hy1, hy2⟩, ⟨hz1, hz2⟩⟩ := hmem
        have hi1 : ((i : ℚ) + 1) ≤ (H : ℚ) := by exact_mod_cast hi
        have hj1 : ((j : ℚ) + 1) ≤ (V : ℚ) := by exact_mod_cast hj
        have hxup : x ≤ x_max := by
          rw [← hHx]
          linarith [mul_le_mul_of_nonneg_right hi1 hdx]
        have hzup : z ≤ z_max := by
          rw [← hVz]
          linarith [mul_le_mul_of_nonneg_right hj1 hdz]
        have hi0 : (0 : ℚ) ≤ (i : ℚ) * ((x_max - x_min) / (H : ℚ)) :=
          mul_nonneg (Nat.cast_nonneg i) hdx
        have hj0 : (0 : ℚ) ≤ (j : ℚ) * ((z_max - z_min) / (V : ℚ)) :=
          mul_nonneg (Nat.cast_nonneg j) hdz
        exact ⟨⟨by linarith, hxup⟩, ⟨hy1, hy2⟩, ⟨by linarith, hzup⟩⟩
      · rintro ⟨⟨hx1, hx2⟩, ⟨hy1, hy2⟩, ⟨hz1, hz2⟩⟩
        obtain ⟨i, hi, hxi⟩ :=
          (mem_strip_iff x_min ((x_max - x_min) / (H : ℚ)) x H hH hdx).2
            ⟨hx1, by rw [hHx]; exact hx2⟩
        obtain ⟨j, hj, hzj⟩ :=
          (mem_strip_iff z_min ((z_max - z_min) / (V : ℚ)) z V hV hdz).2
            ⟨hz1, by rw [hVz]; exact hz2⟩
        have hxo : x_min + (i : ℚ) * ((x_max - x_min) / (H : ℚ))
            ≤ x_min + ((i : ℚ) + 1) * ((x_max - x_min) / (H : ℚ)) :=
          add_le_add_left (mul_le_mul_of_nonneg_right (by linarith : (i : ℚ) ≤ (i : ℚ) + 1) hdx) x_min
        have hzo : z_min + (j : ℚ) * ((z_max - z_min) / (V : ℚ))
            ≤ z_min + ((j : ℚ) + 1) * ((z_max - z_min) / (V : ℚ)) :=
          add_le_add_left (mul_le_mul_of_nonneg_right (by linarith : (j : ℚ) ≤ (j : ℚ) + 1) hdz) z_min
        refine ⟨([x_min + (i : ℚ) * ((x_max - x_min) / (H : ℚ)),
            x_min + ((i : ℚ) + 1) * ((x_max - x_min) / (H : ℚ)),
            x_min + ((i : ℚ) + 1) * ((x_max - x_min) / (H : ℚ)),
            x_min + (i : ℚ) * ((x_max - x_min) / (H : ℚ))],
           [y_min, y_min, y_min, y_min],
           [z_min + (j : ℚ) * ((z_max - z_min) / (V : ℚ)),
            z_min + (j : ℚ) * ((z_max - z_min) / (V : ℚ)),
            z_min + ((j : ℚ) + 1) * ((z_max - z_min) / (V : ℚ)),
            z_min + ((j : ℚ) + 1) * ((z_max - z_min) / (V : ℚ))]), ?_, ?_⟩
        · rw [hdefX]
          simp only [List.mem_bind, List.mem_map, List.mem_range]
          exact ⟨i, hi, j, hj, rfl⟩
        · unfold panel_bbox
          rw [list_min_rect _ _ hxo, list_max_rect _ _ hxo,
            list_min_rect y_min y_min le_rfl, list_max_rect y_min y_min le_rfl,
            list_min_band _ _ hzo, list_max_band _ _ hzo]
          simp only [Set.mem_prod, Set.mem_Icc]
          exact ⟨hxi, ⟨hy1, hy2⟩, hzj⟩
  · refine ⟨?_, ?_, ?_⟩
    · rw [hdefY, length_bind_const _ _ V
        (fun i _ => by rw [List.length_map, List.length_range]), List.length_range]
    · intro p hp
      rw [hdefY] at hp
      simp only [List.mem_bind, List.mem_map, List.mem_range] at hp
      obtain ⟨i, hi, j, hj, rfl⟩ := hp
      exact ⟨i, j, hi, hj, rfl⟩
    · ext ⟨x, y, z⟩
      simp only [Set.mem_iUnion, Set.mem_prod, Set.mem_Icc, exists_prop]
      constructor
      · rintro ⟨p, hp, hmem⟩
        rw [hdefY] at hp
        simp only [List.mem_bind, List.mem_map, List.mem_range] at hp
        obtain ⟨i, hi, j, hj, rfl⟩ := hp
        have hyi : y_min + (i : ℚ) * ((y_max - y_min) / (H : ℚ))
            ≤ y_min + ((i : ℚ) + 1) * ((y_max - y_min) / (H : ℚ)) :=
          add_le_add_left (mul_le_mul_of_nonneg_right (by linarith : (i : ℚ) ≤ (i : ℚ) + 1) hdy) y_min
        have hzj : z_min + (j : ℚ) * ((z_max - z_min) / (V : ℚ))
            ≤ z_min + ((j : ℚ) + 1) * ((z_max - z_min) / (V : ℚ)) :=
          add_le_add_left (mul_le_mul_of_nonneg_right (by linarith : (j : ℚ) ≤ (j : ℚ) + 1) hdz) z_min
        unfold panel_bbox at hmem
        rw [list_min_rect x_min x_min le_rfl, list_max_rect x_min x_min le_rfl,
          list_min_rect _ _ hyi, list_max_rect _ _ hyi,
          list_min_band _ _ hzj, list_max_band _ _ hzj] at hmem
        simp only [Set.mem_prod, Set.mem_Icc] at hmem
        obtain ⟨⟨hx1, hx2⟩, ⟨hy1, hy2⟩, ⟨hz1, hz2⟩⟩ := hmem
        have hi1 : ((i : ℚ) + 1) ≤ (H : ℚ) := by exact_mod_cast hi
        have hj1 : ((j : ℚ) + 1) ≤ (V : ℚ) := by exact_mod_cast hj
        have hyup : y ≤ y_max := by
          rw [← hHy]
          linarith [mul_le_mul_of_nonneg_right hi1 hdy]
        have hzup : z ≤ z_max := by
          rw [← hVz]
          linarith [mul_le_mul_of_nonneg_right hj1 hdz]
        have hi0 : (0 : ℚ) ≤ (i : ℚ) * ((y_max - y_min) / (H : ℚ)) :=
          mul_nonneg (Nat.cast_nonneg i) hdy
        have hj0 : (0 : ℚ) ≤ (j : ℚ) * ((z_max - z_min) / (V : ℚ)) :=
          mul_nonneg (Nat.cast_nonneg j) hdz
        exact ⟨⟨hx1, hx2⟩, ⟨by linarith, hyup⟩, ⟨by linarith, hzup⟩⟩
      · rintro ⟨⟨hx1, hx2⟩, ⟨hy1, hy2⟩, ⟨hz1, hz2⟩⟩
        obtain ⟨i, hi, hyi⟩ :=
          (mem_strip_iff y_min ((y_max - y_min) / (H : ℚ)) y H hH hdy).2
            ⟨hy1, by rw [hHy]; exact hy2⟩
        obtain ⟨j, hj, hzj⟩ :=
          (mem_strip_iff z_min ((z_max - z_min) / (V : ℚ)) z V hV hdz).2
            ⟨hz1, by rw [hVz]; exact hz2⟩
        have hyo : y_min + (i : ℚ) * ((y_max - y_min) / (H : ℚ))
            ≤ y_min + ((i : ℚ) + 1) * ((y_max - y_min) / (H : ℚ)) :=
          add_le_add_left (mul_le_mul_of_nonneg_right (by linarith : (i : ℚ) ≤ (i : ℚ) + 1) hdy) y_min
        have hzo : z_min + (j : ℚ) * ((z_max - z_min) / (V : ℚ))
            ≤ z_min + ((j : ℚ) + 1) * ((z_max - z_min) / (V : ℚ)) :=
          add_le_add_left (mul_le_mul_of_nonneg_right (by linarith : (j : ℚ) ≤ (j : ℚ) + 1) hdz) z_min
        refine ⟨([x_min, x_min, x_min, x_min],
           [y_min + (i : ℚ) * ((y_max - y_min) / (H : ℚ)),
            y_min + ((i : ℚ) + 1) * ((y_max - y_min) / (H : ℚ)),
            y_min + ((i : ℚ) + 1) * ((y_max - y_min) / (H : ℚ)),
            y_min + (i : ℚ) * ((y_max - y_min) / (H : ℚ))],
           [z_min + (j : ℚ) * ((z_max - z_min) / (V : ℚ)),
            z_min + (j : ℚ) * ((z_max - z_min) / (V : ℚ)),
            z_min + ((j : ℚ) + 1) * ((z_max - z_min) / (V : ℚ)),
            z_min + ((j : ℚ) + 1) * ((z_max - z_min) / (V : ℚ))]), ?_, ?_⟩
        · rw [hdefY]
          simp only [List.mem_bind, List.mem_map, List.mem_range]
          exact ⟨i, hi, j, hj, rfl⟩
        · unfold panel_bbox
          rw [list_min_rect x_min x_min le_rfl, list_max_rect x_min x_min le_rfl,
            list_min_rect _ _ hyo, list_max_rect _ _ hyo,
            list_min_band _ _ hzo, list_max_band _ _ hzo]
          simp only [Set.mem_prod, Set.mem_Icc]
          exact ⟨⟨hx1, hx2⟩, hyi, hzj⟩

theorem create_mesh_grid_tiles_witness :
    (0 : ℕ) < 2 ∧ (0 : ℕ) < 2 ∧ (0 : ℚ) ≤ 6 ∧ (0 : ℚ) ≤ 0 ∧ (0 : ℚ) ≤ 3 ∧
    ((create_mesh_grid 0 6 0 0 0 3 2 2 "X").length = 2 * 2 ∧
     (⋃ p ∈ create_mesh_grid 0 6 0 0 0 3 2 2 "X", panel_bbox p)
       = Set.Icc (0:ℚ) 6 ×ˢ (Set.Icc (0:ℚ) 0 ×ˢ Set.Icc (0:ℚ) 3)) :=
  ⟨by norm_num, by norm_num, by norm_num, by norm_num, by norm_num,
   (create_mesh_grid_tiles 0 6 0 0 0 3 2 2 (by norm_num) (by norm_num)
      (by norm_num) (by norm_num) (by norm_num)).1.1,
   (create_mesh_grid_tiles 0 6 0 0 0 3 2 2 (by norm_num) (by norm_num)
      (by norm_num) (by norm_num) (by norm_num)).1.2.2⟩

/-- C8: with the frame configuration (10 stories, 5 × 3 grid at 6 m spacing,
ALL_INTERSECTIONS columns, main beams in both directions), the generator
places 15 columns per story, 150 columns in total, 12 X-direction plus 10
Y-direction = 22 main beams per story, and 220 main beams across the 10
stories before any secondary beams are added. -/
theorem frame_concrete_counts :
    (column_positions frame_config).length = 15 ∧
    (create_frame_columns frame_config (frame_story_heights frame_config)).length
      = 150 ∧
    (∀ (z : ℚ) (s : ℕ),
       (x_main_beams frame_config (generate_grid_coordinates 5 6)
          (generate_grid_coordinates 3 6) z s).length = 12 ∧
       (y_main_beams frame_config (generate_grid_coordinates 5 6)
          (generate_grid_coordinates 3 6) z s).length = 10) ∧
    (create_frame_beams { frame_config with beam_layout_secondary := false }
       (frame_story_heights frame_config)).length = 220 := by
  have hgx : (generate_grid_coordinates 5 (6:ℚ)).length = 5 :=
    generate_grid_coordinates_length 5 6
  have hgy : (generate_grid_coordinates 3 (6:ℚ)).length = 3 :=
    generate_grid_coordinates_length 3 6
  have hpos : (column_positions frame_config).length = 15 := by
    have hred : column_positions frame_config
        = (generate_grid_coordinates 5 6).enum.bind fun p =>
            (generate_grid_coordinates 3 6).enum.map fun q =>
              (p.1, q.1, p.2, q.2) := by
      simp [column_positions, frame_config]
    rw [hred, length_bind_const _ _ 3 fun p _ => by
      simp [List.length_map, List.enum_length, hgy]]
    simp [List.enum_length, hgx]
  have hx : ∀ (z : ℚ) (s : ℕ),
      (x_main_beams frame_config (generate_grid_coordinates 5 6)
        (generate_grid_coordinates 3 6) z s).length = 12 := by
    intro z s
    unfold x_main_beams
    rw [length_bind_const _ _ 4 fun q _ => by simp [frame_config]]
    simp [List.enum_length, hgy]
  have hy : ∀ (z : ℚ) (s : ℕ),
      (y_main_beams frame_config (generate_grid_coordinates 5 6)
        (generate_grid_coordinates 3 6) z s).length = 10 := by
    intro z s
    unfold y_main_beams
    rw [length_bind_const _ _ 2 fun p _ => by simp [frame_config]]
    simp [List.enum_length, hgx]
  refine ⟨hpos, ?_, fun z s => ⟨hx z s, hy z s⟩, ?_⟩
  · have hred : create_frame_columns frame_config (frame_story_heights frame_config)
        = (story_levels frame_config (frame_story_heights frame_config)).bind
            fun st => (column_positions frame_config).map fun pos =>
              { name := s!"COL_X{pos.1}_Y{pos.2.1}_S{st.1}"
                p1 := (pos.2.2.1, pos.2.2.2, st.2.1)
                p2 := (pos.2.2.1, pos.2.2.2, st.2.2) } := by
      simp [create_frame_columns, frame_config]
    rw [hred, length_bind_const _ _ 15 fun st _ => by simp [List.length_map, hpos]]
    simp [story_levels, story_levels_from_length, frame_config]
  · have hred : create_frame_beams
        { frame_config with beam_layout_secondary := false }
        (frame_story_heights frame_config)
        = (story_levels { frame_config with beam_layout_secondary := false }
            (frame_story_heights frame_config)).bind fun st =>
              x_main_beams { frame_config with beam_layout_secondary := false }
                (generate_grid_coordinates 5 6) (generate_grid_coordinates 3 6)
                st.2.2 st.1 ++
              y_main_beams { frame_config with beam_layout_secondary := false }
                (generate_grid_coordinates 5 6) (generate_grid_coordinates 3 6)
                st.2.2 st.1 := by
      simp [create_frame_beams, frame_config]
    rw [hred, length_bind_const _ _ 22 ?hst]
    · simp [story_levels, story_levels_from_length, frame_config]
    · intro st _
      rw [List.length_append]
      have e1 : x_main_beams { frame_config with beam_layout_secondary := false }
          (generate_grid_coordinates 5 6) (generate_grid_coordinates 3 6)
          st.2.2 st.1
          = x_main_beams frame_config (generate_grid_coordinates 5 6)
              (generate_grid_coordinates 3 6) st.2.2 st.1 := rfl
      have e2 : y_main_beams { frame_config with beam_layout_secondary := false }
          (generate_grid_coordinates 5 6) (generate_grid_coordinates 3 6)
          st.2.2 st.1
          = y_main_beams frame_config (generate_grid_coordinates 5 6)
              (generate_grid_coordinates 3 6) st.2.2 st.1 := rfl
      rw [e1, e2, hx st.2.2 st.1, hy st.2.2 st.1]

/-- C9 counterexample: in the configured frame (bay span 6 m, secondary-beam
spacing 3 m, direction Y), the claimed per-bay count `max(1, span/spacing)`
is 2 but the code generates only the interior lines `k = 1 .. num-1`, i.e.
exactly 1 secondary beam for the bay `[0, 6] × [0, 6]`. -/
theorem secondary_beams_per_bay_counterexample :
    (bay_secondary_beams frame_config 0 6 0 6 3 0 0 1).length
      ≠ (max 1 (py_int (((6:ℚ) - 0) / frame_config.secondary_beam_spacing))).toNat ∧
    (max 1 (py_int (((6:ℚ) - 0) / frame_config.secondary_beam_spacing))).toNat = 2 ∧
    (bay_secondary_beams frame_config 0 6 0 6 3 0 0 1).length = 1 := by
  have hnum : py_int (((6:ℚ) - 0) / frame_config.secondary_beam_spacing) = 2 := by
    norm_num [py_int, frame_config]
  have hmax : max 1 (py_int (((6:ℚ) - 0) / frame_config.secondary_beam_spacing)) = 2 := by
    rw [hnum]; decide
  have hlen : (bay_secondary_beams frame_config 0 6 0 6 3 0 0 1).length = 1 := by
    simp only [bay_secondary_beams,
      show frame_config.secondary_beam_direction = "Y" from rfl, hmax]
    norm_num [List.length_range']
  exact ⟨by rw [hlen, hmax]; decide, by rw [hmax]; decide, hlen⟩

/-- C9 amended: for a bay of span `x2 - x1 > 0` in secondary-beam direction Y
with positive spacing, the bay is divided into `num = max(1, int(span /
spacing))` strips and the code generates exactly `num - 1` secondary beams
(not `num`), evenly spaced at `x1 + k * span / num` for `k = 1 .. num - 1`,
all strictly inside the bay (never on a boundary line). -/
theorem bay_secondary_beams_count_and_interior (cfg : FrameConfig)
    (x1 x2 y1 y2 z : ℚ) (i j s : ℕ)
    (hdir : cfg.secondary_beam_direction = "Y")
    (hspan : x1 < x2) (hsp : 0 < cfg.secondary_beam_spacing) :
    ∃ num : ℤ, num = max 1 (py_int ((x2 - x1) / cfg.secondary_beam_spacing)) ∧
      (bay_secondary_beams cfg x1 x2 y1 y2 z i j s).length = (num - 1).toNat ∧
      ∀ m ∈ bay_secondary_beams cfg x1 x2 y1 y2 z i j s,
        ∃ k : ℕ, 1 ≤ k ∧ (k : ℤ) < num ∧
          m.p1 = (x1 + (k : ℚ) * ((x2 - x1) / (num : ℚ)), y1, z) ∧
          m.p2 = (x1 + (k : ℚ) * ((x2 - x1) / (num : ℚ)), y2, z) ∧
          x1 < x1 + (k : ℚ) * ((x2 - x1) / (num : ℚ)) ∧
          x1 + (k : ℚ) * ((x2 - x1) / (num : ℚ)) < x2 := by
  refine ⟨max 1 (py_int ((x2 - x1) / cfg.secondary_beam_spacing)), rfl, ?_⟩
  simp only [bay_secondary_beams, hdir, eq_self_iff_true, if_true]
  set num : ℤ := max 1 (py_int ((x2 - x1) / cfg.secondary_beam_spacing)) with hnum
  have hnum1 : 1 ≤ num := hnum ▸ le_max_left _ _
  by_cases hn : 1 < num
  · simp only [if_pos hn]
    constructor
    · simp [List.length_map, List.length_range']
    · intro m hm
      simp only [List.mem_map] at hm
      obtain ⟨k, hk, rfl⟩ := hm
      rw [List.mem_range'_1] at hk
      have hk2 : (k : ℤ) < num := by
        have h2 := hk.2
        omega
      refine ⟨k, hk.1, hk2, rfl, rfl, ?_, ?_⟩
      · have hq : (2 : ℚ) ≤ (num : ℚ) := by exact_mod_cast hn
        have hk1 : (1 : ℚ) ≤ (k : ℚ) := by exact_mod_cast hk.1
        have hpos : 0 < (x2 - x1) / (num : ℚ) :=
          div_pos (by linarith) (by linarith)
        nlinarith
      · have hq : (2 : ℚ) ≤ (num : ℚ) := by exact_mod_cast hn
        have hkq : (k : ℚ) ≤ (num : ℚ) - 1 := by
          have : (k : ℤ) ≤ num - 1 := by omega
          exact_mod_cast this
        have hk1 : (1 : ℚ) ≤ (k : ℚ) := by exact_mod_cast hk.1
        have hpos : 0 < (x2 - x1) / (num : ℚ) :=
          div_pos (by linarith) (by linarith)
        have hmul : (k : ℚ) * ((x2 - x1) / (num : ℚ))
            ≤ ((num : ℚ) - 1) * ((x2 - x1) / (num : ℚ)) :=
          mul_le_mul_of_nonneg_right hkq hpos.le
        have heq : ((num : ℚ) - 1) * ((x2 - x1) / (num : ℚ))
            = (x2 - x1) - (x2 - x1) / (num : ℚ) := by
          field_simp
          ring
        nlinarith
  · simp only [if_neg hn]
    have h1 : num = 1 := by omega
    rw [h1]
    exact ⟨by simp, fun m hm => absurd hm (List.not_mem_nil m)⟩

theorem bay_secondary_beams_count_witness :
    frame_config.secondary_beam_direction = "Y" ∧ (0:ℚ) < 6 ∧
    0 < frame_config.secondary_beam_spacing ∧
    (∃ num : ℤ, num = max 1 (py_int (((6:ℚ) - 0) / frame_config.secondary_beam_spacing)) ∧
      (bay_secondary_beams frame_config 0 6 0 6 3 0 0 1).length = (num - 1).toNat ∧
      ∀ m ∈ bay_secondary_beams frame_config 0 6 0 6 3 0 0 1,
        ∃ k : ℕ, 1 ≤ k ∧ (k : ℤ) < num ∧
          m.p1 = (0 + (k : ℚ) * (((6:ℚ) - 0) / (num : ℚ)), 0, 3) ∧
          m.p2 = (0 + (k : ℚ) * (((6:ℚ) - 0) / (num : ℚ)), 6, 3) ∧
          (0:ℚ) < 0 + (k : ℚ) * (((6:ℚ) - 0) / (num : ℚ)) ∧
          0 + (k : ℚ) * (((6:ℚ) - 0) / (num : ℚ)) < 6) :=
  ⟨rfl, by norm_num, by norm_num [frame_config],
   bay_secondary_beams_count_and_interior frame_config 0 6 0 6 3 0 0 1 rfl
     (by norm_num) (by norm_num [frame_config])⟩

theorem china_response_spectrum_floor_witness :
    (0 : ℝ) ≤ 0.3 ∧ (0 : ℝ) ≤ 0.08 ∧ (0 : ℝ) < 9.80665 ∧
    (0.20 * 0.08 ≤ china_response_spectrum 0.3 0.05 0.08 0.65 9.80665 / 9.80665 ∧
     0 ≤ china_response_spectrum 0.3 0.05 0.08 0.65 9.80665 / 9.80665) :=
  ⟨by norm_num, by norm_num, by norm_num,
   china_response_spectrum_floor 0.3 0.05 0.08 0.65 9.80665
     (by norm_num) (by norm_num) (by norm_num)⟩

end Etabs
